import Mathlib

/-!
Shallow embedding of the darkforest-punk crafting and equipment subsystem:
`FoundryCraftingSystem` (spaceship crafting), `ModuleCraftingSystem`
(module crafting), `SpaceshipModuleSystem` (module install/uninstall) and
`FoundryUpgradeSystem` (foundry upgrade tier), together with the MUD tables
they read and write.

Machine integers are modelled as `Nat`; Solidity 0.8 checked arithmetic is
modelled by explicit bound checks wherever an addition can exceed the
storage width (`uint16` bonuses) or a subtraction can underflow, in which
case the whole operation aborts, matching the all-or-nothing revert
semantics of a transaction.  Every fallible operation returns
`Except Err WorldState`, an error meaning the transaction reverted with no
state change.
-/

namespace DFPunk

/-- Errors raised by the embedded systems (interfaces/errors.sol as used in
the sources), plus three technical outcomes: `IndexOutOfBounds` and
`ArithmeticOverflow` for Solidity 0.8 runtime faults, `PlanetNotInited`
for the `DFUtils.readInitedPlanet` guard, and `IdCollision` for the
modelled fresh-artifact-id requirement. -/
inductive Err where
  | NotPlanetOwner
  | InvalidPlanetType
  | PlanetLevelTooLow
  | InvalidModuleType
  | InvalidSpaceshipType
  | FoundryCraftingLimitReached
  | InvalidMaterialAmount
  | MissingRequiredMaterials
  | InvalidMaterialType
  | InsufficientMaterialOnPlanet
  | ArtifactNotOnPlanet1
  | ArtifactNotOnPlanet2
  | ArtifactNotOnPlanet3
  | InvalidSpaceshipArtifact
  | InvalidModuleArtifact
  | ModuleAlreadyInstalled
  | ModuleSlotFull
  | ModuleNotInstalled
  | ArtifactStorageFull
  | FoundryAtMaxUpgradeLevel
  | InsufficientFoundryUpgradeFee
  | IndexOutOfBounds
  | ArithmeticOverflow
  | PlanetNotInited
  | IdCollision
  deriving DecidableEq, Repr

instance {e a : Type} [DecidableEq e] [DecidableEq a] : DecidableEq (Except e a) := fun x y =>
  match x, y with
  | .ok v, .ok w =>
    if h : v = w then .isTrue (by rw [h]) else .isFalse (by intro hc; cases hc; exact h rfl)
  | .error v, .error w =>
    if h : v = w then .isTrue (by rw [h]) else .isFalse (by intro hc; cases hc; exact h rfl)
  | .ok _, .error _ => .isFalse (by intro hc; cases hc)
  | .error _, .ok _ => .isFalse (by intro hc; cases hc)

/-- ArtifactRarity enum of codegen/common.sol (UNKNOWN is the zero value). -/
inductive ArtifactRarity where
  | UNKNOWN
  | COMMON
  | RARE
  | EPIC
  | LEGENDARY
  | MYTHIC
  deriving DecidableEq, Repr

/-- Modelled from the spec: PlanetType.FOUNDRY of codegen/common.sol (the enum
is not under src); only equality with this value is ever tested, and the
Dark Forest enum places FOUNDRY at position 3. -/
def FOUNDRY : Nat := 3

/-- Modelled from the spec: SpaceType enum of codegen/common.sol
(UNKNOWN, NEBULA, SPACE, DEEP_SPACE, DEAD_SPACE), so DEAD_SPACE = 4. -/
def DEAD_SPACE : Nat := 4

/-- Modelled from the spec: Biome is an 11-valued tag (values 0..10), so
`uint8(type(Biome).max) = 10`, the CORRUPTED biome. -/
def BIOME_MAX : Nat := 10

/-- Modelled from the spec: Biome.CORRUPTED, the final enum value 10. -/
def CORRUPTED : Nat := 10

/-- Modelled from the spec: MaterialType enum indices (codegen/common.sol is
not under src).  The systems only compare material ids and index fixed-size
arrays with them, so the eight crafting materials are given distinct indices
below 12; recipe identity is what matters, not the concrete numbers. -/
def WINDSTEEL : Nat := 1

/-- Modelled from the spec: MaterialType.AURORIUM index. -/
def AURORIUM : Nat := 2

/-- Modelled from the spec: MaterialType.PYROSTEEL index. -/
def PYROSTEEL : Nat := 3

/-- Modelled from the spec: MaterialType.SCRAPIUM index. -/
def SCRAPIUM : Nat := 4

/-- Modelled from the spec: MaterialType.BLACKALLOY index. -/
def BLACKALLOY : Nat := 5

/-- Modelled from the spec: MaterialType.CORRUPTED_CRYSTAL index. -/
def CORRUPTED_CRYSTAL : Nat := 6

/-- Modelled from the spec: MaterialType.LIVING_WOOD index. -/
def LIVING_WOOD : Nat := 7

/-- Modelled from the spec: MaterialType.CRYOSTONE index. -/
def CRYOSTONE : Nat := 8

/-- Module slot type constant ENGINES_SLOT (SpaceshipModuleSystem). -/
def ENGINES_SLOT : Nat := 1

/-- Module slot type constant WEAPONS_SLOT. -/
def WEAPONS_SLOT : Nat := 2

/-- Module slot type constant HULL_SLOT. -/
def HULL_SLOT : Nat := 3

/-- Module slot type constant SHIELD_SLOT. -/
def SHIELD_SLOT : Nat := 4

/-- SpaceshipModuleSystem._getSlotIndexForSlotType: slot type to slot index
(HULL and SHIELD share physical slot index 3). -/
def getSlotIndexForSlotType (slotType : Nat) : Except Err Nat :=
  if slotType = ENGINES_SLOT then .ok 1
  else if slotType = WEAPONS_SLOT then .ok 2
  else if slotType = HULL_SLOT ∨ slotType = SHIELD_SLOT then .ok 3
  else .error .InvalidModuleType

/-- SpaceshipModuleSystem._getSlotTypeForModuleType: module type 1..4 maps
1:1 onto slot types ENGINES, WEAPONS, HULL, SHIELD. -/
def getSlotTypeForModuleType (moduleType : Nat) : Except Err Nat :=
  if moduleType = 1 then .ok ENGINES_SLOT
  else if moduleType = 2 then .ok WEAPONS_SLOT
  else if moduleType = 3 then .ok HULL_SLOT
  else if moduleType = 4 then .ok SHIELD_SLOT
  else .error .InvalidModuleType

/-- SpaceshipModuleSystem._getModuleLimit: module limits per spaceship type
(1 Scout, 2 Fighter, 3 Destroyer, 4 Carrier) and slot type. -/
def getModuleLimit (spaceshipType slotType : Nat) : Except Err Nat :=
  if spaceshipType = 1 then
    if slotType = ENGINES_SLOT then .ok 1
    else if slotType = WEAPONS_SLOT then .ok 1
    else if slotType = HULL_SLOT then .ok 1
    else if slotType = SHIELD_SLOT then .ok 1
    else .error .InvalidSpaceshipType
  else if spaceshipType = 2 then
    if slotType = ENGINES_SLOT then .ok 2
    else if slotType = WEAPONS_SLOT then .ok 2
    else if slotType = HULL_SLOT then .ok 2
    else if slotType = SHIELD_SLOT then .ok 2
    else .error .InvalidSpaceshipType
  else if spaceshipType = 3 then
    if slotType = ENGINES_SLOT then .ok 3
    else if slotType = WEAPONS_SLOT then .ok 4
    else if slotType = HULL_SLOT then .ok 2
    else if slotType = SHIELD_SLOT then .ok 2
    else .error .InvalidSpaceshipType
  else if spaceshipType = 4 then
    if slotType = ENGINES_SLOT then .ok 4
    else if slotType = WEAPONS_SLOT then .ok 2
    else if slotType = HULL_SLOT then .ok 4
    else if slotType = SHIELD_SLOT then .ok 4
    else .error .InvalidSpaceshipType
  else .error .InvalidSpaceshipType

/-- ModuleCraftingSystem._getCraftingMMultiplier: stepwise escalating craft
cost multiplier (percent); FoundryCraftingSystem._getCraftingMultiplier is
textually identical. -/
def getCraftingMMultiplier (craftingCount : Nat) : Nat :=
  if craftingCount = 0 then 100
  else if craftingCount = 1 then 150
  else if craftingCount = 2 then 225
  else 100

/-- ModuleCraftingSystem._calculateModuleRarity: deterministic rarity from
planet level and seed. -/
def calculateModuleRarity (planetLevel seed : Nat) : ArtifactRarity :=
  let lvlBonusSeed := seed &&& 0xfff000
  let effLevel :=
    if lvlBonusSeed < 0x40000 then planetLevel + 2
    else if lvlBonusSeed < 0x100000 then planetLevel + 1
    else planetLevel
  if effLevel ≤ 1 then .COMMON
  else if effLevel ≤ 3 then .RARE
  else if effLevel ≤ 5 then .EPIC
  else if effLevel ≤ 7 then .LEGENDARY
  else .MYTHIC

/-- FoundryCraftingSystem._calculateSpaceshipRarity (src/unnamed/part_006),
textually identical to the module version. -/
def calculateSpaceshipRarity (planetLevel seed : Nat) : ArtifactRarity :=
  let lvlBonusSeed := seed &&& 0xfff000
  let effLevel :=
    if lvlBonusSeed < 0x40000 then planetLevel + 2
    else if lvlBonusSeed < 0x100000 then planetLevel + 1
    else planetLevel
  if effLevel ≤ 1 then .COMMON
  else if effLevel ≤ 3 then .RARE
  else if effLevel ≤ 5 then .EPIC
  else if effLevel ≤ 7 then .LEGENDARY
  else .MYTHIC

/-- _getRarityMultiplier (identical in ModuleCraftingSystem,
FoundryCraftingSystem and FoundryUpgradeSystem): rarity percent multiplier
with default 100. -/
def getRarityMultiplier (rarity : ArtifactRarity) : Nat :=
  if rarity = .COMMON then 100
  else if rarity = .RARE then 120
  else if rarity = .EPIC then 150
  else if rarity = .LEGENDARY then 200
  else if rarity = .MYTHIC then 300
  else 100

/-- _getBiomeBonus (identical in ModuleCraftingSystem and
FoundryCraftingSystem): biome ids 1-3 give 1, 4-6 give 2, 7-9 give 4,
10 gives 8, anything else 0. -/
def getBiomeBonus (biome : Nat) : Nat :=
  if 1 ≤ biome ∧ biome ≤ 3 then 1
  else if 4 ≤ biome ∧ biome ≤ 6 then 2
  else if 7 ≤ biome ∧ biome ≤ 9 then 4
  else if biome = 10 then 8
  else 0

namespace ModuleCraftingSystem

/-- ModuleCraftingSystem._getModuleRoleAttackBonus. -/
def getModuleRoleAttackBonus (moduleType : Nat) : Nat :=
  if moduleType = 1 then 0
  else if moduleType = 2 then 8
  else if moduleType = 3 then 0
  else if moduleType = 4 then 0
  else 0

/-- ModuleCraftingSystem._getModuleRoleDefenseBonus. -/
def getModuleRoleDefenseBonus (moduleType : Nat) : Nat :=
  if moduleType = 1 then 0
  else if moduleType = 2 then 0
  else if moduleType = 3 then 8
  else if moduleType = 4 then 10
  else 0

/-- ModuleCraftingSystem._getModuleRoleSpeedBonus. -/
def getModuleRoleSpeedBonus (moduleType : Nat) : Nat :=
  if moduleType = 1 then 8
  else if moduleType = 2 then 0
  else if moduleType = 3 then 0
  else if moduleType = 4 then 0
  else 0

/-- ModuleCraftingSystem._getModuleRoleRangeBonus. -/
def getModuleRoleRangeBonus (moduleType : Nat) : Nat :=
  if moduleType = 1 then 3
  else if moduleType = 2 then 5
  else if moduleType = 3 then 0
  else if moduleType = 4 then 0
  else 0

/-- ModuleCraftingSystem._calculateAttackBonus: note the divisor 400 on this
axis only. -/
def calculateAttackBonus (biome : Nat) (rarity : ArtifactRarity) (moduleType : Nat) : Nat :=
  let roleBonus := getModuleRoleAttackBonus moduleType
  if roleBonus = 0 then 0
  else (getBiomeBonus biome + roleBonus) * getRarityMultiplier rarity / 400

/-- ModuleCraftingSystem._calculateDefenseBonus. -/
def calculateDefenseBonus (biome : Nat) (rarity : ArtifactRarity) (moduleType : Nat) : Nat :=
  let roleBonus := getModuleRoleDefenseBonus moduleType
  if roleBonus = 0 then 0
  else (getBiomeBonus biome + roleBonus) * getRarityMultiplier rarity / 100

/-- ModuleCraftingSystem._calculateSpeedBonus. -/
def calculateSpeedBonus (biome : Nat) (rarity : ArtifactRarity) (moduleType : Nat) : Nat :=
  let roleBonus := getModuleRoleSpeedBonus moduleType
  if roleBonus = 0 then 0
  else (getBiomeBonus biome + roleBonus) * getRarityMultiplier rarity / 100

/-- ModuleCraftingSystem._calculateRangeBonus. -/
def calculateRangeBonus (biome : Nat) (rarity : ArtifactRarity) (moduleType : Nat) : Nat :=
  let roleBonus := getModuleRoleRangeBonus moduleType
  if roleBonus = 0 then 0
  else (getBiomeBonus biome + roleBonus) * getRarityMultiplier rarity / 100

end ModuleCraftingSystem

namespace FoundryCraftingSystem

/-- FoundryCraftingSystem._getSpaceshipRoleAttackBonus. -/
def getSpaceshipRoleAttackBonus (spaceshipType : Nat) : Nat :=
  if spaceshipType = 1 then 0
  else if spaceshipType = 2 then 5
  else if spaceshipType = 3 then 10
  else if spaceshipType = 4 then 5
  else 0

/-- FoundryCraftingSystem._getSpaceshipRoleDefenseBonus. -/
def getSpaceshipRoleDefenseBonus (spaceshipType : Nat) : Nat :=
  if spaceshipType = 1 then 0
  else if spaceshipType = 2 then 5
  else if spaceshipType = 3 then 10
  else if spaceshipType = 4 then 15
  else 0

/-- FoundryCraftingSystem._getSpaceshipRoleSpeedBonus. -/
def getSpaceshipRoleSpeedBonus (spaceshipType : Nat) : Nat :=
  if spaceshipType = 1 then 10
  else if spaceshipType = 2 then 0
  else if spaceshipType = 3 then 0
  else if spaceshipType = 4 then 0
  else 0

/-- FoundryCraftingSystem._getSpaceshipRoleRangeBonus. -/
def getSpaceshipRoleRangeBonus (spaceshipType : Nat) : Nat :=
  if spaceshipType = 1 then 5
  else if spaceshipType = 2 then 5
  else if spaceshipType = 3 then 0
  else if spaceshipType = 4 then 3
  else 0

/-- FoundryCraftingSystem._calculateAttackBonus (divisor 100 on every ship
axis, unlike the module attack axis). -/
def calculateAttackBonus (biome : Nat) (rarity : ArtifactRarity) (spaceshipType : Nat) : Nat :=
  let roleBonus := getSpaceshipRoleAttackBonus spaceshipType
  if roleBonus = 0 then 0
  else (getBiomeBonus biome + roleBonus) * getRarityMultiplier rarity / 100

/-- FoundryCraftingSystem._calculateDefenseBonus. -/
def calculateDefenseBonus (biome : Nat) (rarity : ArtifactRarity) (spaceshipType : Nat) : Nat :=
  let roleBonus := getSpaceshipRoleDefenseBonus spaceshipType
  if roleBonus = 0 then 0
  else (getBiomeBonus biome + roleBonus) * getRarityMultiplier rarity / 100

/-- FoundryCraftingSystem._calculateSpeedBonus. -/
def calculateSpeedBonus (biome : Nat) (rarity : ArtifactRarity) (spaceshipType : Nat) : Nat :=
  let roleBonus := getSpaceshipRoleSpeedBonus spaceshipType
  if roleBonus = 0 then 0
  else (getBiomeBonus biome + roleBonus) * getRarityMultiplier rarity / 100

/-- FoundryCraftingSystem._calculateRangeBonus. -/
def calculateRangeBonus (biome : Nat) (rarity : ArtifactRarity) (spaceshipType : Nat) : Nat :=
  let roleBonus := getSpaceshipRoleRangeBonus spaceshipType
  if roleBonus = 0 then 0
  else (getBiomeBonus biome + roleBonus) * getRarityMultiplier rarity / 100

end FoundryCraftingSystem

/-- A 4-axis stat bonus record (ModuleBonusData / SpaceshipBonusData; the
stored fields are uint16). -/
structure Bonus where
  attackBonus : Nat
  defenseBonus : Nat
  speedBonus : Nat
  rangeBonus : Nat
  deriving DecidableEq, Repr

/-- The all-zero bonus record. -/
def Bonus.zero : Bonus := ⟨0, 0, 0, 0⟩

/-- Componentwise bonus addition (the four additions of
_executeInstallModule). -/
def Bonus.add (a b : Bonus) : Bonus :=
  ⟨a.attackBonus + b.attackBonus, a.defenseBonus + b.defenseBonus,
   a.speedBonus + b.speedBonus, a.rangeBonus + b.rangeBonus⟩

/-- Componentwise subtraction floored at 0 per axis, exactly the guarded
subtractions of _executeUninstallModule. -/
def Bonus.subFloor (a b : Bonus) : Bonus :=
  ⟨if a.attackBonus ≥ b.attackBonus then a.attackBonus - b.attackBonus else 0,
   if a.defenseBonus ≥ b.defenseBonus then a.defenseBonus - b.defenseBonus else 0,
   if a.speedBonus ≥ b.speedBonus then a.speedBonus - b.speedBonus else 0,
   if a.rangeBonus ≥ b.rangeBonus then a.rangeBonus - b.rangeBonus else 0⟩

/-- All four components fit in a uint16; the checked uint16 additions of
_executeInstallModule succeed exactly when this holds of their result. -/
def Bonus.le16 (a : Bonus) : Bool :=
  a.attackBonus ≤ 65535 && a.defenseBonus ≤ 65535 &&
  a.speedBonus ≤ 65535 && a.rangeBonus ≤ 65535

/-- SpaceshipSlotData: one slot record per (spaceship, slot index). -/
structure SlotData where
  moduleSlotType : Nat
  moduleId : Nat
  deriving DecidableEq, Repr

/-- SpaceshipModuleInstalledData, keyed by module id. -/
structure InstalledData where
  artifactId : Nat
  moduleSlotType : Nat
  installed : Bool
  deriving DecidableEq, Repr

/-- The planet fields this subsystem reads and writes: owner, type, space
type, level, perlin, per-material balances (stored scaled by 1000 as in the
sources), and the artifact storage with its capacity
(`hasArtifactSlot` = length below capacity). -/
structure PlanetData where
  owner : Nat
  planetType : Nat
  spaceType : Nat
  level : Nat
  perlin : Nat
  materials : Nat → Nat
  artifacts : List Nat
  artifactCap : Nat

/-- The world state: every MUD table the four systems touch.  All tables
are total maps with 0 / empty defaults, exactly like MUD storage. -/
structure WorldState where
  planets : Nat → PlanetData
  artifactOwner : Nat → Nat
  artifactIndexOf : Nat → Nat
  spaceshipTypeOf : Nat → Nat
  shipBiome : Nat → Nat
  shipRarity : Nat → ArtifactRarity
  shipCraftedAt : Nat → Nat
  shipCrafter : Nat → Nat
  moduleTypeOf : Nat → Nat
  moduleBiome : Nat → Nat
  moduleRarity : Nat → ArtifactRarity
  moduleCraftedAt : Nat → Nat
  moduleCrafter : Nat → Nat
  moduleBonus : Nat → Bonus
  shipBonus : Nat → Bonus
  slot : Nat → Nat → SlotData
  installedTable : Nat → InstalledData
  craftCount : Nat → Nat
  lastCraftTime : Nat → Nat
  upgradeLevel : Nat → Nat

/-- Static chain configuration: the PlanetBiomeConfig thresholds and the
keccak256(planetHash, perlin) hash, modelled as an opaque-but-fixed function
parameter (its only relevant property is determinism). -/
structure Cfg where
  biomeThreshold1 : Nat
  biomeThreshold2 : Nat
  keccakPH : Nat → Nat → Nat

/-- Per-call environment: the caller, block timestamp, the rarity seed
(keccak256 of timestamp, executor and planet hash — opaque bytes per the
spec), the id the created artifact receives, and whether the upgrade fee
payment suffices (ETH plumbing is out of scope). -/
structure CallEnv where
  caller : Nat
  timestamp : Nat
  seed : Nat
  newId : Nat
  feeOk : Bool

/-- Planet.writeToStore: persists the in-memory planet and re-records
ArtifactOwner for every artifact held in its storage (see the comment at
src/unnamed/part_005 line 361). -/
def writePlanet (s : WorldState) (h : Nat) (p : PlanetData) : WorldState :=
  { s with
    planets := Function.update s.planets h p
    artifactOwner := fun a => if a ∈ p.artifacts then h else s.artifactOwner a }

/-- ArtifactOwner.deleteRecord. -/
def deleteArtifactOwner (s : WorldState) (a : Nat) : WorldState :=
  { s with artifactOwner := Function.update s.artifactOwner a 0 }

/-- _calculateBiomeFromPlanet (identical in ModuleCraftingSystem,
FoundryCraftingSystem and FoundryUpgradeSystem): Corrupted in dead space,
otherwise a keccak of (planetHash, perlin) mod 1000 against the configured
thresholds, clamped to the Biome range. -/
def calculateBiomeFromPlanet (cfg : Cfg) (planetHash : Nat) (p : PlanetData) : Nat :=
  if p.spaceType = DEAD_SPACE then CORRUPTED
  else
    let biomeBase := cfg.keccakPH planetHash p.perlin % 1000
    let res := p.spaceType * 3
    let res :=
      if biomeBase < cfg.biomeThreshold1 then res - 2
      else if biomeBase < cfg.biomeThreshold2 then res - 1
      else res
    if res > BIOME_MAX then BIOME_MAX else res

/-- The module recipes of ModuleCraftingSystem._validateModuleRecipe:
expected (material, base amount) pairs per module type. -/
def moduleRecipe (moduleType : Nat) : Except Err (List (Nat × Nat)) :=
  if moduleType = 1 then .ok [(WINDSTEEL, 80), (AURORIUM, 40)]
  else if moduleType = 2 then .ok [(PYROSTEEL, 120), (SCRAPIUM, 80)]
  else if moduleType = 3 then .ok [(BLACKALLOY, 160), (CORRUPTED_CRYSTAL, 80)]
  else if moduleType = 4 then .ok [(LIVING_WOOD, 160), (CRYOSTONE, 120)]
  else .error .InvalidModuleType

/-- The spaceship recipes of FoundryCraftingSystem._validateRecipe. -/
def spaceshipRecipe (spaceshipType : Nat) : Except Err (List (Nat × Nat)) :=
  if spaceshipType = 1 then .ok [(WINDSTEEL, 100), (AURORIUM, 50)]
  else if spaceshipType = 2 then .ok [(PYROSTEEL, 150), (SCRAPIUM, 100)]
  else if spaceshipType = 3 then .ok [(BLACKALLOY, 200), (CORRUPTED_CRYSTAL, 100)]
  else if spaceshipType = 4 then .ok [(LIVING_WOOD, 200), (CRYOSTONE, 150)]
  else .error .InvalidSpaceshipType

/-- The materialFound / materialAmounts filling loop of _validateModuleRecipe
and _validateRecipe: rejects material ids above 12 and duplicates; id 12
itself passes the `> 12` guard but faults the bool[12] array access. -/
def scanMaterials : List (Nat × Nat) → (Nat → Bool) → (Nat → Nat) →
    Except Err ((Nat → Bool) × (Nat → Nat))
  | [], found, amts => .ok (found, amts)
  | (m, a) :: rest, found, amts =>
    if m > 12 then .error .InvalidMaterialType
    else if m ≥ 12 then .error .IndexOutOfBounds
    else if found m then .error .InvalidMaterialAmount
    else scanMaterials rest (Function.update found m true) (Function.update amts m a)

/-- The expected-materials loop of _validateModuleRecipe / _validateRecipe:
every recipe material must be provided, with a provided amount within +1 of
the truncated multiplier-scaled base amount. -/
def checkExpected (found : Nat → Bool) (amts : Nat → Nat) (mult : Nat) :
    List (Nat × Nat) → Except Err Unit
  | [] => .ok ()
  | (m, base) :: rest =>
    if found m = false then .error .MissingRequiredMaterials
    else
      let expectedAmt := base * mult / 100
      if amts m < expectedAmt ∨ amts m > expectedAmt + 1 then .error .InvalidMaterialAmount
      else checkExpected found amts mult rest

/-- The sufficiency loop of _validateModuleRecipe / _validateRecipe: the
foundry must hold at least the truncated scaled amount times 1000. -/
def checkSufficient (p : PlanetData) (mult : Nat) : List (Nat × Nat) → Except Err Unit
  | [] => .ok ()
  | (m, base) :: rest =>
    if p.materials m < base * mult / 100 * 1000 then .error .InsufficientMaterialOnPlanet
    else checkSufficient p mult rest

/-- _validateModuleRecipe / _validateRecipe minus the recipe table: length
checks, the provided-materials scan, the expected-amount checks, the
(dead) extra-materials check and the sufficiency check. -/
def validateRecipeWith (recipe : List (Nat × Nat)) (p : PlanetData)
    (materials amounts : List Nat) (mult : Nat) : Except Err Unit :=
  if materials.length ≠ amounts.length then .error .InvalidMaterialAmount
  else if materials.length = 0 then .error .MissingRequiredMaterials
  else if materials.length ≠ recipe.length then .error .MissingRequiredMaterials
  else
    match scanMaterials (materials.zip amounts) (fun _ => false) (fun _ => 0) with
    | .error e => .error e
    | .ok (found, amts) =>
      match checkExpected found amts mult recipe with
      | .error e => .error e
      | .ok _ =>
        if materials.length > recipe.length then .error .InvalidMaterialAmount
        else checkSufficient p mult recipe

/-- The four ModuleBonus.set calls of ModuleCraftingSystem._executeCrafting
bundled into one record. -/
def moduleBonusFor (biome : Nat) (rarity : ArtifactRarity) (moduleType : Nat) : Bonus :=
  ⟨ModuleCraftingSystem.calculateAttackBonus biome rarity moduleType,
   ModuleCraftingSystem.calculateDefenseBonus biome rarity moduleType,
   ModuleCraftingSystem.calculateSpeedBonus biome rarity moduleType,
   ModuleCraftingSystem.calculateRangeBonus biome rarity moduleType⟩

/-- The four SpaceshipBonus.set calls of FoundryCraftingSystem._executeCrafting
bundled into one record. -/
def spaceshipBonusFor (biome : Nat) (rarity : ArtifactRarity) (spaceshipType : Nat) : Bonus :=
  ⟨FoundryCraftingSystem.calculateAttackBonus biome rarity spaceshipType,
   FoundryCraftingSystem.calculateDefenseBonus biome rarity spaceshipType,
   FoundryCraftingSystem.calculateSpeedBonus biome rarity spaceshipType,
   FoundryCraftingSystem.calculateRangeBonus biome rarity spaceshipType⟩

/-- The consumption loop of _executeCrafting: subtract each provided amount
times 1000 from the foundry balance (a checked uint256 subtraction). -/
def consumeMaterials (p : PlanetData) : List (Nat × Nat) → Except Err PlanetData
  | [] => .ok p
  | (m, a) :: rest =>
    if p.materials m < a * 1000 then .error .ArithmeticOverflow
    else
      consumeMaterials
        { p with materials := Function.update p.materials m (p.materials m - a * 1000) } rest

/-- ModuleCraftingSystem.craftModule: validation
(_validateModuleCrafting + _validateModuleRecipe) then _executeCrafting.
ArtifactLib.NewModuleArtifact is not under src; modelled from the spec,
it creates a fresh artifact (id `env.newId`, artifactIndex 23) on the
foundry.  The entryFee / requireSameOwnerAndJunkOwner wrappers and the
Global/PlayerStats counters are access-control and telemetry outside this
subsystem (spec sections 1 and 6) and are not modelled. -/
def craftModule (cfg : Cfg) (env : CallEnv) (s : WorldState)
    (foundryHash moduleType : Nat) (materials amounts : List Nat) (biome : Nat) :
    Except Err WorldState :=
  let foundry := s.planets foundryHash
  if foundry.spaceType = 0 then .error .PlanetNotInited
  else if foundry.owner ≠ env.caller then .error .NotPlanetOwner
  else if foundry.planetType ≠ FOUNDRY then .error .InvalidPlanetType
  else if foundry.level < 4 then .error .PlanetLevelTooLow
  else if moduleType < 1 ∨ moduleType > 4 then .error .InvalidModuleType
  else if s.craftCount foundryHash ≥ 1 + s.upgradeLevel foundryHash then
    .error .FoundryCraftingLimitReached
  else
    match moduleRecipe moduleType with
    | .error e => .error e
    | .ok recipe =>
      match validateRecipeWith recipe foundry materials amounts
          (getCraftingMMultiplier (s.craftCount foundryHash)) with
      | .error e => .error e
      | .ok _ =>
        match consumeMaterials foundry (materials.zip amounts) with
        | .error e => .error e
        | .ok foundry1 =>
          let rarity := calculateModuleRarity foundry.level env.seed
          let biome1 :=
            if biome = 0 ∨ biome > BIOME_MAX then calculateBiomeFromPlanet cfg foundryHash foundry
            else biome
          if env.newId = 0 ∨ s.artifactIndexOf env.newId ≠ 0 then .error .IdCollision
          else if foundry1.artifacts.length ≥ foundry1.artifactCap then .error .ArtifactStorageFull
          else
            let mb := moduleBonusFor biome1 rarity moduleType
            let s1 :=
              { s with
                artifactIndexOf := Function.update s.artifactIndexOf env.newId 23
                moduleTypeOf := Function.update s.moduleTypeOf env.newId moduleType
                moduleBiome := Function.update s.moduleBiome env.newId biome1
                moduleRarity := Function.update s.moduleRarity env.newId rarity
                moduleCraftedAt := Function.update s.moduleCraftedAt env.newId env.timestamp
                moduleCrafter := Function.update s.moduleCrafter env.newId env.caller
                moduleBonus := Function.update s.moduleBonus env.newId mb
                craftCount :=
                  Function.update s.craftCount foundryHash (s.craftCount foundryHash + 1)
                lastCraftTime := Function.update s.lastCraftTime foundryHash env.timestamp }
            .ok (writePlanet s1 foundryHash
              { foundry1 with artifacts := foundry1.artifacts ++ [env.newId] })

/-- FoundryCraftingSystem.craftSpaceship: validation (_validateCrafting +
_validateRecipe) then _executeCrafting of src/unnamed/part_006.
ArtifactLib.NewSpaceshipArtifact is not under src; modelled from the spec,
it creates a fresh artifact (id `env.newId`, artifactIndex 3) on the
foundry.  NFT minting is disabled in the source (nftTokenId stays 0). -/
def craftSpaceship (cfg : Cfg) (env : CallEnv) (s : WorldState)
    (foundryHash spaceshipType : Nat) (materials amounts : List Nat) (biome : Nat) :
    Except Err WorldState :=
  let foundry := s.planets foundryHash
  if foundry.spaceType = 0 then .error .PlanetNotInited
  else if foundry.owner ≠ env.caller then .error .NotPlanetOwner
  else if foundry.planetType ≠ FOUNDRY then .error .InvalidPlanetType
  else if foundry.level < 4 then .error .PlanetLevelTooLow
  else if spaceshipType < 1 ∨ spaceshipType > 4 then .error .InvalidSpaceshipType
  else if s.craftCount foundryHash ≥ 1 + s.upgradeLevel foundryHash then
    .error .FoundryCraftingLimitReached
  else
    match spaceshipRecipe spaceshipType with
    | .error e => .error e
    | .ok recipe =>
      match validateRecipeWith recipe foundry materials amounts
          (getCraftingMMultiplier (s.craftCount foundryHash)) with
      | .error e => .error e
      | .ok _ =>
        match consumeMaterials foundry (materials.zip amounts) with
        | .error e => .error e
        | .ok foundry1 =>
          let rarity := calculateSpaceshipRarity foundry.level env.seed
          let biome1 :=
            if biome = 0 ∨ biome > BIOME_MAX then calculateBiomeFromPlanet cfg foundryHash foundry
            else biome
          if env.newId = 0 ∨ s.artifactIndexOf env.newId ≠ 0 then .error .IdCollision
          else if foundry1.artifacts.length ≥ foundry1.artifactCap then .error .ArtifactStorageFull
          else
            let sb := spaceshipBonusFor biome1 rarity spaceshipType
            let s1 :=
              { s with
                artifactIndexOf := Function.update s.artifactIndexOf env.newId 3
                spaceshipTypeOf := Function.update s.spaceshipTypeOf env.newId spaceshipType
                shipBiome := Function.update s.shipBiome env.newId biome1
                shipRarity := Function.update s.shipRarity env.newId rarity
                shipCraftedAt := Function.update s.shipCraftedAt env.newId env.timestamp
                shipCrafter := Function.update s.shipCrafter env.newId env.caller
                shipBonus := Function.update s.shipBonus env.newId sb
                craftCount :=
                  Function.update s.craftCount foundryHash (s.craftCount foundryHash + 1)
                lastCraftTime := Function.update s.lastCraftTime foundryHash env.timestamp }
            .ok (writePlanet s1 foundryHash
              { foundry1 with artifacts := foundry1.artifacts ++ [env.newId] })

/-- SpaceshipModuleSystem._countInstalledModules: inspects only the single
slot record for the slot index of the given slot type (the source TODO
acknowledges multi-module counting is unsupported). -/
def countInstalledModules (s : WorldState) (spaceshipId slotType : Nat) : Except Err Nat :=
  match getSlotIndexForSlotType slotType with
  | .error e => .error e
  | .ok slotIndex =>
    let sl := s.slot spaceshipId slotIndex
    .ok (if sl.moduleId > 0 ∧ sl.moduleSlotType = slotType then 1 else 0)

/-- The slot-occupancy tail of _validateInstallModule (lines 192-218):
same module allows replacement, same slot type checks the count against the
limit, different slot type sharing the index is allowed. -/
def validateSlotOccupancy (s : WorldState) (spaceshipId moduleId slotType slotIndex : Nat) :
    Except Err Unit :=
  let sl := s.slot spaceshipId slotIndex
  if sl.moduleId > 0 then
    if sl.moduleId = moduleId then .ok ()
    else if sl.moduleSlotType = slotType then
      match countInstalledModules s spaceshipId slotType with
      | .error e => .error e
      | .ok currentCount =>
        match getModuleLimit (s.spaceshipTypeOf spaceshipId) slotType with
        | .error e => .error e
        | .ok lim => if currentCount ≥ lim then .error .ModuleSlotFull else .ok ()
    else .ok ()
  else .ok ()

/-- The slot-type / slot-index derivation and occupancy check closing
_validateInstallModule. -/
def validateInstallSlotCheck (s : WorldState) (spaceshipId moduleId : Nat) :
    Except Err Unit :=
  match getSlotTypeForModuleType (s.moduleTypeOf moduleId) with
  | .error e => .error e
  | .ok slotType =>
    match getSlotIndexForSlotType slotType with
    | .error e => .error e
    | .ok slotIndex => validateSlotOccupancy s spaceshipId moduleId slotType slotIndex

/-- SpaceshipModuleSystem._validateInstallModule: planet ownership, artifact
location and kind checks, the already-installed check, crafted-record
checks, then the slot occupancy check. -/
def validateInstallModule (env : CallEnv) (s : WorldState)
    (spaceshipId moduleId planetHash : Nat) : Except Err Unit :=
  let planet := s.planets planetHash
  if planet.spaceType = 0 then .error .PlanetNotInited
  else if planet.owner ≠ env.caller then .error .NotPlanetOwner
  else if s.artifactOwner spaceshipId = 0 then .error .ArtifactNotOnPlanet1
  else if s.artifactOwner spaceshipId ≠ planetHash then .error .ArtifactNotOnPlanet1
  else if s.artifactIndexOf spaceshipId ≠ 3 then .error .InvalidSpaceshipArtifact
  else if s.artifactOwner moduleId = 0 then .error .ArtifactNotOnPlanet2
  else if s.artifactOwner moduleId ≠ planetHash then .error .ArtifactNotOnPlanet2
  else if s.artifactIndexOf moduleId ≠ 23 then .error .InvalidModuleArtifact
  else if (s.installedTable moduleId).installed ∧ (s.installedTable moduleId).artifactId > 0 ∧
      (s.installedTable moduleId).artifactId ≠ spaceshipId then .error .ModuleAlreadyInstalled
  else if s.spaceshipTypeOf spaceshipId = 0 then .error .InvalidSpaceshipArtifact
  else if s.moduleTypeOf moduleId = 0 then .error .InvalidModuleArtifact
  else validateInstallSlotCheck s spaceshipId moduleId

/-- SpaceshipModuleSystem._executeInstallModule: record the slot and the
installed entry, add the module bonuses onto the spaceship bonuses (checked
uint16 additions), remove the module from planet storage, persist the
planet, and delete the module ArtifactOwner record. -/
def executeInstallModule (s : WorldState) (spaceshipId moduleId planetHash : Nat) :
    Except Err WorldState :=
  match getSlotTypeForModuleType (s.moduleTypeOf moduleId) with
  | .error e => .error e
  | .ok slotType =>
    match getSlotIndexForSlotType slotType with
    | .error e => .error e
    | .ok slotIndex =>
      let nb := Bonus.add (s.shipBonus spaceshipId) (s.moduleBonus moduleId)
      if nb.le16 = false then .error .ArithmeticOverflow
      else
        let s1 :=
          { s with
            slot := Function.update s.slot spaceshipId
              (Function.update (s.slot spaceshipId) slotIndex ⟨slotType, moduleId⟩)
            installedTable :=
              Function.update s.installedTable moduleId ⟨spaceshipId, slotType, true⟩
            shipBonus := Function.update s.shipBonus spaceshipId nb }
        .ok (deleteArtifactOwner
          (writePlanet s1 planetHash
            { s.planets planetHash with
              artifacts := (s.planets planetHash).artifacts.erase moduleId }) moduleId)

/-- SpaceshipModuleSystem.installModule / _processInstallModule:
_validateInstallModule then _executeInstallModule.  The entryFee /
requireSameOwnerAndJunkOwner wrappers and the stats counters are access
control and telemetry outside this subsystem and are not modelled. -/
def installModule (env : CallEnv) (s : WorldState) (spaceshipId moduleId planetHash : Nat) :
    Except Err WorldState :=
  match validateInstallModule env s spaceshipId moduleId planetHash with
  | .error e => .error e
  | .ok _ => executeInstallModule s spaceshipId moduleId planetHash

/-- SpaceshipModuleSystem._validateUninstallModule: planet ownership, the
spaceship must sit in this planet storage, and the module must be recorded
as installed on this spaceship. -/
def validateUninstallModule (env : CallEnv) (s : WorldState)
    (spaceshipId moduleId planetHash : Nat) : Except Err Unit :=
  let planet := s.planets planetHash
  if planet.spaceType = 0 then .error .PlanetNotInited
  else if planet.owner ≠ env.caller then .error .NotPlanetOwner
  else if spaceshipId ∈ planet.artifacts then
    if (s.installedTable moduleId).artifactId ≠ spaceshipId then .error .ModuleNotInstalled
    else .ok ()
  else .error .ArtifactNotOnPlanet3

/-- SpaceshipModuleSystem._executeUninstallModule: subtract the module
bonuses floored at 0, clear the slot record for its slot index, clear the
installed record, then push the module back onto the planet storage if it
has a free artifact slot and persist the planet. -/
def executeUninstallModule (s : WorldState) (spaceshipId moduleId planetHash : Nat) :
    Except Err WorldState :=
  let slotType := (s.installedTable moduleId).moduleSlotType
  match getSlotIndexForSlotType slotType with
  | .error e => .error e
  | .ok slotIndex =>
    if (s.planets planetHash).artifacts.length < (s.planets planetHash).artifactCap then
      let s1 :=
        { s with
          shipBonus := Function.update s.shipBonus spaceshipId
            (Bonus.subFloor (s.shipBonus spaceshipId) (s.moduleBonus moduleId))
          slot := Function.update s.slot spaceshipId
            (Function.update (s.slot spaceshipId) slotIndex ⟨slotType, 0⟩)
          installedTable := Function.update s.installedTable moduleId ⟨0, 0, false⟩ }
      .ok (writePlanet s1 planetHash
        { s.planets planetHash with
          artifacts := (s.planets planetHash).artifacts ++ [moduleId] })
    else .error .ArtifactStorageFull

/-- SpaceshipModuleSystem.uninstallModule / _processUninstallModule:
_validateUninstallModule then _executeUninstallModule. -/
def uninstallModule (env : CallEnv) (s : WorldState) (spaceshipId moduleId planetHash : Nat) :
    Except Err WorldState :=
  match validateUninstallModule env s spaceshipId moduleId planetHash with
  | .error e => .error e
  | .ok _ => executeUninstallModule s spaceshipId moduleId planetHash

/-- FoundryUpgradeSystem.upgradeFoundry: _validateUpgrade then the branch
level increment.  The ETH fee computation (biome and rarity multipliers
over msg.value) is wallet plumbing outside this subsystem (spec section 1);
modelled from the spec as an environment-supplied sufficiency flag, which
only gates success and mutates nothing. -/
def upgradeFoundry (env : CallEnv) (s : WorldState) (foundryHash : Nat) :
    Except Err WorldState :=
  let foundry := s.planets foundryHash
  if foundry.spaceType = 0 then .error .PlanetNotInited
  else if foundry.owner ≠ env.caller then .error .NotPlanetOwner
  else if foundry.planetType ≠ FOUNDRY then .error .InvalidPlanetType
  else if foundry.level < 4 then .error .PlanetLevelTooLow
  else if s.upgradeLevel foundryHash ≥ 2 then .error .FoundryAtMaxUpgradeLevel
  else if env.feeOk = false then .error .InsufficientFoundryUpgradeFee
  else
    let s1 :=
      { s with
        upgradeLevel :=
          Function.update s.upgradeLevel foundryHash (s.upgradeLevel foundryHash + 1) }
    .ok (writePlanet s1 foundryHash foundry)

/-- Modelled from the spec: the broader planet/combat/movement simulation
(out of scope per spec section 1, an external collaborator per section 6)
relocates stored artifacts between planets.  This is how a module crafted
at one foundry can end up next to a spaceship crafted at another; it moves
an artifact out of one planet storage into another with free capacity and
re-records its owner, touching nothing else. -/
def relocateArtifact (s : WorldState) (artifactId fromHash toHash : Nat) :
    Except Err WorldState :=
  if fromHash = toHash then .error .InvalidPlanetType
  else if artifactId ∈ (s.planets fromHash).artifacts then
    if (s.planets toHash).artifacts.length < (s.planets toHash).artifactCap then
      let pFrom := s.planets fromHash
      let pTo := s.planets toHash
      let s1 := writePlanet s fromHash { pFrom with artifacts := pFrom.artifacts.erase artifactId }
      .ok (writePlanet s1 toHash { pTo with artifacts := pTo.artifacts ++ [artifactId] })
    else .error .ArtifactStorageFull
  else .error .ArtifactNotOnPlanet3

/-- One successful operation of the subsystem (or of the surrounding
simulation, for artifact relocation). -/
inductive Step (cfg : Cfg) : WorldState → WorldState → Prop where
  | craftModuleStep : ∀ env s h mt mats amts biome s',
      craftModule cfg env s h mt mats amts biome = .ok s' → Step cfg s s'
  | craftSpaceshipStep : ∀ env s h st mats amts biome s',
      craftSpaceship cfg env s h st mats amts biome = .ok s' → Step cfg s s'
  | installStep : ∀ env s shipId modId h s',
      installModule env s shipId modId h = .ok s' → Step cfg s s'
  | uninstallStep : ∀ env s shipId modId h s',
      uninstallModule env s shipId modId h = .ok s' → Step cfg s s'
  | upgradeStep : ∀ env s h s',
      upgradeFoundry env s h = .ok s' → Step cfg s s'
  | relocateStep : ∀ s a h1 h2 s',
      relocateArtifact s a h1 h2 = .ok s' → Step cfg s s'

/-- A genesis state of the subsystem: planets exist with arbitrary
configuration but no crafted items, no installed modules, no bonuses and no
craft counters (items are created only by a successful craft, spec
section 3). -/
def InitState (s : WorldState) : Prop :=
  (∀ h, (s.planets h).artifacts = []) ∧
  (∀ a, s.artifactOwner a = 0) ∧
  (∀ a, s.artifactIndexOf a = 0) ∧
  (∀ a, s.spaceshipTypeOf a = 0) ∧
  (∀ a, s.moduleTypeOf a = 0) ∧
  (∀ a, s.shipBonus a = Bonus.zero) ∧
  (∀ a, s.moduleBonus a = Bonus.zero) ∧
  (∀ m, s.installedTable m = ⟨0, 0, false⟩) ∧
  (∀ sh i, s.slot sh i = ⟨0, 0⟩) ∧
  (∀ h, s.craftCount h = 0) ∧
  (∀ h, s.upgradeLevel h = 0)

/-- States reachable from a genesis state by successful operations. -/
inductive Reachable (cfg : Cfg) : WorldState → Prop where
  | init : ∀ s, InitState s → Reachable cfg s
  | step : ∀ s s', Reachable cfg s → Step cfg s s' → Reachable cfg s'

/-- The module is currently recorded as installed on the given spaceship in
the SpaceshipModuleInstalled table. -/
def installedOn (s : WorldState) (shipId m : Nat) : Prop :=
  (s.installedTable m).installed = true ∧ (s.installedTable m).artifactId = shipId

instance (s : WorldState) (shipId m : Nat) : Decidable (installedOn s shipId m) := by
  unfold installedOn
  infer_instance

/-- The spaceship's own crafted stat bonuses, recomputable from its stored
type, biome and rarity (zero for an id that is not a crafted spaceship). -/
def shipBase (s : WorldState) (shipId : Nat) : Bonus :=
  if s.spaceshipTypeOf shipId = 0 then Bonus.zero
  else spaceshipBonusFor (s.shipBiome shipId) (s.shipRarity shipId) (s.spaceshipTypeOf shipId)

/-- Componentwise sum of the recorded bonuses of a list of modules. -/
def modulesSum (s : WorldState) : List Nat → Bonus
  | [] => Bonus.zero
  | m :: L => Bonus.add (s.moduleBonus m) (modulesSum s L)

/-- The inductive invariant of the subsystem, established at genesis and
preserved by every step:
`bonusSum` — each carrier's aggregated bonuses equal its own crafted base
bonuses plus the sum of the bonuses of the modules recorded as installed;
`installedOff` — an installed module has no ArtifactOwner record, sits in
no planet storage, has artifactIndex 23, a valid slot type, and points at a
crafted spaceship;
`notInstalled` — a non-installed module has the default installed record;
`memberOwner` — planet storage members have a matching ArtifactOwner record
and a nonzero artifact index;
`artifactsNodup` — planet storages hold no duplicates;
`zeroId` — id 0 never holds a crafted artifact;
`craftBound` — the craft counter respects 1 + upgrade tier, and the tier
never exceeds 2. -/
structure Inv (s : WorldState) : Prop where
  bonusSum : ∀ shipId, ∃ L : List Nat, L.Nodup ∧
    (∀ m, m ∈ L ↔ installedOn s shipId m) ∧
    s.shipBonus shipId = Bonus.add (shipBase s shipId) (modulesSum s L)
  installedOff : ∀ m, (s.installedTable m).installed = true →
    s.artifactOwner m = 0 ∧ (∀ h, m ∉ (s.planets h).artifacts) ∧
    s.artifactIndexOf m = 23 ∧ (s.installedTable m).artifactId ≠ 0 ∧
    s.artifactIndexOf ((s.installedTable m).artifactId) = 3 ∧
    1 ≤ (s.installedTable m).moduleSlotType ∧ (s.installedTable m).moduleSlotType ≤ 4
  notInstalled : ∀ m, (s.installedTable m).installed = false →
    s.installedTable m = ⟨0, 0, false⟩
  memberOwner : ∀ m h, m ∈ (s.planets h).artifacts →
    s.artifactOwner m = h ∧ s.artifactIndexOf m ≠ 0
  artifactsNodup : ∀ h, (s.planets h).artifacts.Nodup
  zeroId : s.artifactIndexOf 0 = 0
  craftBound : ∀ h, s.craftCount h ≤ 1 + s.upgradeLevel h ∧ s.upgradeLevel h ≤ 2

/-- Ceiling division, the claim-side reading of `ceil(base * multiplier / 100)`. -/
def ceilDiv (a b : Nat) : Nat := (a + b - 1) / b

/-- Round-half-up division, the claim-side reading of `round(x / D)`. -/
def roundHalfUp (a b : Nat) : Nat := (a + b / 2) / b

/-- A concrete chain configuration for the witness traces: zero biome
thresholds and a constant hash. -/
def cfg0 : Cfg := ⟨0, 0, fun _ _ => 0⟩

/-- A concrete call environment: caller 7, timestamp 1000, seed 0, the given
fresh artifact id, and a sufficient upgrade fee. -/
def envN (newId : Nat) : CallEnv := ⟨7, 1000, 0, newId, true⟩

/-- A concrete genesis state: every planet hash is an initialized level-4
foundry owned by 7 in nebula space with ample materials and an empty
artifact storage. -/
def g0 : WorldState :=
  { planets := fun _ =>
      { owner := 7, planetType := 3, spaceType := 1, level := 4, perlin := 0,
        materials := fun _ => 1000000000, artifacts := [], artifactCap := 10 }
    artifactOwner := fun _ => 0
    artifactIndexOf := fun _ => 0
    spaceshipTypeOf := fun _ => 0
    shipBiome := fun _ => 0
    shipRarity := fun _ => .UNKNOWN
    shipCraftedAt := fun _ => 0
    shipCrafter := fun _ => 0
    moduleTypeOf := fun _ => 0
    moduleBiome := fun _ => 0
    moduleRarity := fun _ => .UNKNOWN
    moduleCraftedAt := fun _ => 0
    moduleCrafter := fun _ => 0
    moduleBonus := fun _ => Bonus.zero
    shipBonus := fun _ => Bonus.zero
    slot := fun _ _ => ⟨0, 0⟩
    installedTable := fun _ => ⟨0, 0, false⟩
    craftCount := fun _ => 0
    lastCraftTime := fun _ => 0
    upgradeLevel := fun _ => 0 }

/-- Trace: first upgrade of foundry 2 (tier 0 to 1). -/
def t1 : WorldState := (upgradeFoundry (envN 0) g0 2).toOption.getD g0

/-- Trace: second upgrade of foundry 2 (tier 1 to 2, three crafts). -/
def t2 : WorldState := (upgradeFoundry (envN 0) t1 2).toOption.getD g0

/-- Trace: craft a Fighter (type 2, engine limit 2), id 100, on foundry 1. -/
def t3 : WorldState :=
  (craftSpaceship cfg0 (envN 100) t2 1 2 [PYROSTEEL, SCRAPIUM] [150, 100] 1).toOption.getD g0

/-- Trace: craft Engine module 101 on foundry 2 (multiplier 100). -/
def t4 : WorldState :=
  (craftModule cfg0 (envN 101) t3 2 1 [WINDSTEEL, AURORIUM] [80, 40] 1).toOption.getD g0

/-- Trace: craft Engine module 102 on foundry 2 (multiplier 150). -/
def t5 : WorldState :=
  (craftModule cfg0 (envN 102) t4 2 1 [WINDSTEEL, AURORIUM] [120, 60] 1).toOption.getD g0

/-- Trace: craft Engine module 103 on foundry 2 (multiplier 225). -/
def t6 : WorldState :=
  (craftModule cfg0 (envN 103) t5 2 1 [WINDSTEEL, AURORIUM] [180, 90] 1).toOption.getD g0

/-- Trace: module 101 arrives at planet 1. -/
def t7 : WorldState := (relocateArtifact t6 101 2 1).toOption.getD g0

/-- Trace: module 102 arrives at planet 1. -/
def t8 : WorldState := (relocateArtifact t7 102 2 1).toOption.getD g0

/-- Trace: module 103 arrives at planet 1. -/
def t9 : WorldState := (relocateArtifact t8 103 2 1).toOption.getD g0

/-- Trace: install Engine module 101 on Fighter 100. -/
def t10 : WorldState := (installModule (envN 0) t9 100 101 1).toOption.getD g0

/-- Trace: install Engine module 102 on Fighter 100 (slot overwritten). -/
def t11 : WorldState := (installModule (envN 0) t10 100 102 1).toOption.getD g0

/-- Trace: install Engine module 103 on Fighter 100 (slot overwritten again). -/
def t12 : WorldState := (installModule (envN 0) t11 100 103 1).toOption.getD g0

/-- A state exercising the ModuleSlotFull path directly: Scout 100 (every
limit 1) with Engine module 55 occupying slot index 1, and Engine module
101 available on planet 1. -/
def c3wState : WorldState :=
  { g0 with
    artifactOwner := fun a => if a = 100 ∨ a = 101 then 1 else 0
    artifactIndexOf := fun a => if a = 100 then 3 else if a = 101 ∨ a = 55 then 23 else 0
    spaceshipTypeOf := fun a => if a = 100 then 1 else 0
    moduleTypeOf := fun a => if a = 101 ∨ a = 55 then 1 else 0
    slot := fun sh i => if sh = 100 ∧ i = 1 then ⟨1, 55⟩ else ⟨0, 0⟩ }

/-- A genesis-like state whose stations have already used their single
craft (count 1, tier 0). -/
def g1 : WorldState := { g0 with craftCount := fun _ => 1 }

/-- A dead-space planet for the biome computation witness. -/
def deadPlanet : PlanetData :=
  { owner := 7, planetType := 3, spaceType := 4, level := 4, perlin := 0,
    materials := fun _ => 0, artifacts := [], artifactCap := 10 }

/-- The module craft of the C10 witness: caller-supplied biome 0 on
foundry 2. -/
def c10craft : WorldState :=
  (craftModule cfg0 (envN 101) g0 2 1 [WINDSTEEL, AURORIUM] [80, 40] 0).toOption.getD g0

/-- The spaceship craft of the C10 witness: caller-supplied biome 0 on
foundry 1. -/
def c10shipCraft : WorldState :=
  (craftSpaceship cfg0 (envN 100) g0 1 1 [WINDSTEEL, AURORIUM] [100, 50] 0).toOption.getD g0

/-- Second trace: upgrade foundry 1 (tier 0 to 1, two crafts). -/
def u1 : WorldState := (upgradeFoundry (envN 0) g0 1).toOption.getD g0

/-- Second trace: craft Scout 100 on foundry 1 (multiplier 100). -/
def u2 : WorldState :=
  (craftSpaceship cfg0 (envN 100) u1 1 1 [WINDSTEEL, AURORIUM] [100, 50] 1).toOption.getD g0

/-- Second trace: craft Scout 104 on foundry 1 (multiplier 150). -/
def u3 : WorldState :=
  (craftSpaceship cfg0 (envN 104) u2 1 1 [WINDSTEEL, AURORIUM] [150, 75] 1).toOption.getD g0

/-- Second trace: craft Engine module 101 on foundry 2. -/
def u4 : WorldState :=
  (craftModule cfg0 (envN 101) u3 2 1 [WINDSTEEL, AURORIUM] [80, 40] 1).toOption.getD g0

/-- Second trace: module 101 arrives at planet 1. -/
def u5 : WorldState := (relocateArtifact u4 101 2 1).toOption.getD g0

/-- Second trace: install module 101 on Scout 100. -/
def u6 : WorldState := (installModule (envN 0) u5 100 101 1).toOption.getD g0

@[simp] theorem writePlanet_planets (s : WorldState) (h : Nat) (p : PlanetData) :
    (writePlanet s h p).planets = Function.update s.planets h p := rfl

@[simp] theorem writePlanet_artifactOwner (s : WorldState) (h : Nat) (p : PlanetData) (a : Nat) :
    (writePlanet s h p).artifactOwner a = if a ∈ p.artifacts then h else s.artifactOwner a := rfl

@[simp] theorem writePlanet_artifactIndexOf (s : WorldState) (h : Nat) (p : PlanetData) :
    (writePlanet s h p).artifactIndexOf = s.artifactIndexOf := rfl

@[simp] theorem writePlanet_spaceshipTypeOf (s : WorldState) (h : Nat) (p : PlanetData) :
    (writePlanet s h p).spaceshipTypeOf = s.spaceshipTypeOf := rfl

@[simp] theorem writePlanet_shipBiome (s : WorldState) (h : Nat) (p : PlanetData) :
    (writePlanet s h p).shipBiome = s.shipBiome := rfl

@[simp] theorem writePlanet_shipRarity (s : WorldState) (h : Nat) (p : PlanetData) :
    (writePlanet s h p).shipRarity = s.shipRarity := rfl

@[simp] theorem writePlanet_moduleTypeOf (s : WorldState) (h : Nat) (p : PlanetData) :
    (writePlanet s h p).moduleTypeOf = s.moduleTypeOf := rfl

@[simp] theorem writePlanet_moduleBiome (s : WorldState) (h : Nat) (p : PlanetData) :
    (writePlanet s h p).moduleBiome = s.moduleBiome := rfl

@[simp] theorem writePlanet_moduleRarity (s : WorldState) (h : Nat) (p : PlanetData) :
    (writePlanet s h p).moduleRarity = s.moduleRarity := rfl

@[simp] theorem writePlanet_moduleBonus (s : WorldState) (h : Nat) (p : PlanetData) :
    (writePlanet s h p).moduleBonus = s.moduleBonus := rfl

@[simp] theorem writePlanet_shipBonus (s : WorldState) (h : Nat) (p : PlanetData) :
    (writePlanet s h p).shipBonus = s.shipBonus := rfl

@[simp] theorem writePlanet_slot (s : WorldState) (h : Nat) (p : PlanetData) :
    (writePlanet s h p).slot = s.slot := rfl

@[simp] theorem writePlanet_installedTable (s : WorldState) (h : Nat) (p : PlanetData) :
    (writePlanet s h p).installedTable = s.installedTable := rfl

@[simp] theorem writePlanet_craftCount (s : WorldState) (h : Nat) (p : PlanetData) :
    (writePlanet s h p).craftCount = s.craftCount := rfl

@[simp] theorem writePlanet_upgradeLevel (s : WorldState) (h : Nat) (p : PlanetData) :
    (writePlanet s h p).upgradeLevel = s.upgradeLevel := rfl

@[simp] theorem deleteArtifactOwner_artifactOwner (s : WorldState) (a : Nat) :
    (deleteArtifactOwner s a).artifactOwner = Function.update s.artifactOwner a 0 := rfl

@[simp] theorem deleteArtifactOwner_planets (s : WorldState) (a : Nat) :
    (deleteArtifactOwner s a).planets = s.planets := rfl

@[simp] theorem deleteArtifactOwner_artifactIndexOf (s : WorldState) (a : Nat) :
    (deleteArtifactOwner s a).artifactIndexOf = s.artifactIndexOf := rfl

@[simp] theorem deleteArtifactOwner_spaceshipTypeOf (s : WorldState) (a : Nat) :
    (deleteArtifactOwner s a).spaceshipTypeOf = s.spaceshipTypeOf := rfl

@[simp] theorem deleteArtifactOwner_shipBiome (s : WorldState) (a : Nat) :
    (deleteArtifactOwner s a).shipBiome = s.shipBiome := rfl

@[simp] theorem deleteArtifactOwner_shipRarity (s : WorldState) (a : Nat) :
    (deleteArtifactOwner s a).shipRarity = s.shipRarity := rfl

@[simp] theorem deleteArtifactOwner_moduleTypeOf (s : WorldState) (a : Nat) :
    (deleteArtifactOwner s a).moduleTypeOf = s.moduleTypeOf := rfl

@[simp] theorem deleteArtifactOwner_moduleBonus (s : WorldState) (a : Nat) :
    (deleteArtifactOwner s a).moduleBonus = s.moduleBonus := rfl

@[simp] theorem deleteArtifactOwner_shipBonus (s : WorldState) (a : Nat) :
    (deleteArtifactOwner s a).shipBonus = s.shipBonus := rfl

@[simp] theorem deleteArtifactOwner_slot (s : WorldState) (a : Nat) :
    (deleteArtifactOwner s a).slot = s.slot := rfl

@[simp] theorem deleteArtifactOwner_installedTable (s : WorldState) (a : Nat) :
    (deleteArtifactOwner s a).installedTable = s.installedTable := rfl

@[simp] theorem deleteArtifactOwner_craftCount (s : WorldState) (a : Nat) :
    (deleteArtifactOwner s a).craftCount = s.craftCount := rfl

@[simp] theorem deleteArtifactOwner_upgradeLevel (s : WorldState) (a : Nat) :
    (deleteArtifactOwner s a).upgradeLevel = s.upgradeLevel := rfl

theorem shipBase_ext {s' s : WorldState} {x : Nat}
    (h1 : s'.spaceshipTypeOf x = s.spaceshipTypeOf x)
    (h2 : s'.shipBiome x = s.shipBiome x)
    (h3 : s'.shipRarity x = s.shipRarity x) :
    shipBase s' x = shipBase s x := by
  simp [shipBase, h1, h2, h3]

theorem modulesSum_congr {s' s : WorldState} {L : List Nat}
    (h : ∀ m ∈ L, s'.moduleBonus m = s.moduleBonus m) :
    modulesSum s' L = modulesSum s L := by
  induction L with
  | nil => rfl
  | cons a t ih =>
    simp only [modulesSum]
    rw [h a (by simp), ih (fun m hm => h m (by simp [hm]))]

theorem modulesSum_perm {s : WorldState} {L L' : List Nat} (h : L.Perm L') :
    modulesSum s L = modulesSum s L' := by
  induction h with
  | nil => rfl
  | cons x _ ih => simp only [modulesSum, ih]
  | swap x y t =>
    simp only [modulesSum, Bonus.add]
    simp only [Bonus.mk.injEq]
    omega
  | trans _ _ ih1 ih2 => exact ih1.trans ih2

theorem modulesSum_cons (s : WorldState) (m : Nat) (L : List Nat) :
    modulesSum s (m :: L) = Bonus.add (s.moduleBonus m) (modulesSum s L) := rfl

theorem bonus_add_left_swap (a b c : Bonus) :
    Bonus.add a (Bonus.add b c) = Bonus.add b (Bonus.add a c) := by
  simp only [Bonus.add, Bonus.mk.injEq]
  omega

theorem bonus_add_zero (a : Bonus) : Bonus.add a Bonus.zero = a := by
  simp only [Bonus.add, Bonus.zero]
  obtain ⟨x1, x2, x3, x4⟩ := a
  simp

theorem bonus_subFloor_cancel (base rest b : Bonus) :
    Bonus.subFloor (Bonus.add base (Bonus.add b rest)) b = Bonus.add base rest := by
  simp only [Bonus.add, Bonus.subFloor, Bonus.mk.injEq]
  constructor
  · split <;> omega
  constructor
  · split <;> omega
  constructor
  · split <;> omega
  · split <;> omega

theorem bonus_add_rotate (base sum b : Bonus) :
    Bonus.add (Bonus.add base sum) b = Bonus.add base (Bonus.add b sum) := by
  simp only [Bonus.add, Bonus.mk.injEq]
  omega

theorem bool_ne_false {b : Bool} (h : ¬(b = false)) : b = true := by
  cases b
  · exact absurd rfl h
  · rfl

theorem getSlotTypeForModuleType_ok {mt st : Nat}
    (h : getSlotTypeForModuleType mt = .ok st) : st = mt ∧ 1 ≤ mt ∧ mt ≤ 4 := by
  simp only [getSlotTypeForModuleType, ENGINES_SLOT, WEAPONS_SLOT, HULL_SLOT, SHIELD_SLOT] at h
  repeat' split at h
  all_goals (cases h <;> omega)

theorem getSlotIndexForSlotType_ok {st si : Nat}
    (h : getSlotIndexForSlotType st = .ok si) :
    (st = 1 ∧ si = 1) ∨ (st = 2 ∧ si = 2) ∨ ((st = 3 ∨ st = 4) ∧ si = 3) := by
  simp only [getSlotIndexForSlotType, ENGINES_SLOT, WEAPONS_SLOT, HULL_SLOT, SHIELD_SLOT] at h
  repeat' split at h
  all_goals (cases h <;> omega)

theorem getModuleLimit_ok_pos {t st lim : Nat}
    (h : getModuleLimit t st = .ok lim) : 1 ≤ lim := by
  simp only [getModuleLimit, ENGINES_SLOT, WEAPONS_SLOT, HULL_SLOT, SHIELD_SLOT] at h
  repeat' split at h
  all_goals (cases h <;> omega)

set_option maxHeartbeats 1600000 in
theorem craftModule_ok_inv {cfg : Cfg} {env : CallEnv} {s : WorldState}
    {foundryHash moduleType : Nat} {materials amounts : List Nat} {biome : Nat}
    {s' : WorldState}
    (hok : craftModule cfg env s foundryHash moduleType materials amounts biome = .ok s') :
    ∃ recipe foundry1,
      moduleRecipe moduleType = .ok recipe ∧
      validateRecipeWith recipe (s.planets foundryHash) materials amounts
        (getCraftingMMultiplier (s.craftCount foundryHash)) = .ok () ∧
      consumeMaterials (s.planets foundryHash) (materials.zip amounts) = .ok foundry1 ∧
      (s.planets foundryHash).spaceType ≠ 0 ∧
      (s.planets foundryHash).owner = env.caller ∧
      (s.planets foundryHash).planetType = FOUNDRY ∧
      4 ≤ (s.planets foundryHash).level ∧
      1 ≤ moduleType ∧ moduleType ≤ 4 ∧
      s.craftCount foundryHash < 1 + s.upgradeLevel foundryHash ∧
      env.newId ≠ 0 ∧ s.artifactIndexOf env.newId = 0 ∧
      foundry1.artifacts.length < foundry1.artifactCap ∧
      s' = writePlanet
        { s with
          artifactIndexOf := Function.update s.artifactIndexOf env.newId 23
          moduleTypeOf := Function.update s.moduleTypeOf env.newId moduleType
          moduleBiome := Function.update s.moduleBiome env.newId
            (if biome = 0 ∨ biome > BIOME_MAX
             then calculateBiomeFromPlanet cfg foundryHash (s.planets foundryHash) else biome)
          moduleRarity := Function.update s.moduleRarity env.newId
            (calculateModuleRarity (s.planets foundryHash).level env.seed)
          moduleCraftedAt := Function.update s.moduleCraftedAt env.newId env.timestamp
          moduleCrafter := Function.update s.moduleCrafter env.newId env.caller
          moduleBonus := Function.update s.moduleBonus env.newId
            (moduleBonusFor
              (if biome = 0 ∨ biome > BIOME_MAX
               then calculateBiomeFromPlanet cfg foundryHash (s.planets foundryHash) else biome)
              (calculateModuleRarity (s.planets foundryHash).level env.seed) moduleType)
          craftCount := Function.update s.craftCount foundryHash (s.craftCount foundryHash + 1)
          lastCraftTime := Function.update s.lastCraftTime foundryHash env.timestamp }
        foundryHash { foundry1 with artifacts := foundry1.artifacts ++ [env.newId] } := by
  simp only [craftModule] at hok
  repeat' split at hok
  all_goals try cases hok
  all_goals
    exact ⟨_, _, by assumption, by assumption, by assumption, by assumption, by omega,
      by omega, by omega, by omega, by omega, by omega, by omega, by omega, by omega,
      by split <;> first | rfl | omega⟩

set_option maxHeartbeats 1600000 in
theorem craftSpaceship_ok_inv {cfg : Cfg} {env : CallEnv} {s : WorldState}
    {foundryHash spaceshipType : Nat} {materials amounts : List Nat} {biome : Nat}
    {s' : WorldState}
    (hok : craftSpaceship cfg env s foundryHash spaceshipType materials amounts biome = .ok s') :
    ∃ recipe foundry1,
      spaceshipRecipe spaceshipType = .ok recipe ∧
      validateRecipeWith recipe (s.planets foundryHash) materials amounts
        (getCraftingMMultiplier (s.craftCount foundryHash)) = .ok () ∧
      consumeMaterials (s.planets foundryHash) (materials.zip amounts) = .ok foundry1 ∧
      (s.planets foundryHash).spaceType ≠ 0 ∧
      (s.planets foundryHash).owner = env.caller ∧
      (s.planets foundryHash).planetType = FOUNDRY ∧
      4 ≤ (s.planets foundryHash).level ∧
      1 ≤ spaceshipType ∧ spaceshipType ≤ 4 ∧
      s.craftCount foundryHash < 1 + s.upgradeLevel foundryHash ∧
      env.newId ≠ 0 ∧ s.artifactIndexOf env.newId = 0 ∧
      foundry1.artifacts.length < foundry1.artifactCap ∧
      s' = writePlanet
        { s with
          artifactIndexOf := Function.update s.artifactIndexOf env.newId 3
          spaceshipTypeOf := Function.update s.spaceshipTypeOf env.newId spaceshipType
          shipBiome := Function.update s.shipBiome env.newId
            (if biome = 0 ∨ biome > BIOME_MAX
             then calculateBiomeFromPlanet cfg foundryHash (s.planets foundryHash) else biome)
          shipRarity := Function.update s.shipRarity env.newId
            (calculateSpaceshipRarity (s.planets foundryHash).level env.seed)
          shipCraftedAt := Function.update s.shipCraftedAt env.newId env.timestamp
          shipCrafter := Function.update s.shipCrafter env.newId env.caller
          shipBonus := Function.update s.shipBonus env.newId
            (spaceshipBonusFor
              (if biome = 0 ∨ biome > BIOME_MAX
               then calculateBiomeFromPlanet cfg foundryHash (s.planets foundryHash) else biome)
              (calculateSpaceshipRarity (s.planets foundryHash).level env.seed) spaceshipType)
          craftCount := Function.update s.craftCount foundryHash (s.craftCount foundryHash + 1)
          lastCraftTime := Function.update s.lastCraftTime foundryHash env.timestamp }
        foundryHash { foundry1 with artifacts := foundry1.artifacts ++ [env.newId] } := by
  simp only [craftSpaceship] at hok
  repeat' split at hok
  all_goals try cases hok
  all_goals
    exact ⟨_, _, by assumption, by assumption, by assumption, by assumption, by omega,
      by omega, by omega, by omega, by omega, by omega, by omega, by omega, by omega,
      by split <;> first | rfl | omega⟩

set_option maxHeartbeats 1600000 in
theorem validateInstallModule_ok {env : CallEnv} {s : WorldState}
    {spaceshipId moduleId planetHash : Nat}
    (h : validateInstallModule env s spaceshipId moduleId planetHash = .ok ()) :
    (s.planets planetHash).spaceType ≠ 0 ∧
    (s.planets planetHash).owner = env.caller ∧
    s.artifactOwner spaceshipId = planetHash ∧
    planetHash ≠ 0 ∧
    s.artifactIndexOf spaceshipId = 3 ∧
    s.artifactOwner moduleId = planetHash ∧
    s.artifactIndexOf moduleId = 23 ∧
    s.spaceshipTypeOf spaceshipId ≠ 0 ∧
    s.moduleTypeOf moduleId ≠ 0 ∧
    ∃ slotType slotIndex,
      getSlotTypeForModuleType (s.moduleTypeOf moduleId) = .ok slotType ∧
      getSlotIndexForSlotType slotType = .ok slotIndex ∧
      validateSlotOccupancy s spaceshipId moduleId slotType slotIndex = .ok () := by
  have hslot : ∀ (hc : validateInstallSlotCheck s spaceshipId moduleId = .ok ()),
      ∃ slotType slotIndex,
        getSlotTypeForModuleType (s.moduleTypeOf moduleId) = .ok slotType ∧
        getSlotIndexForSlotType slotType = .ok slotIndex ∧
        validateSlotOccupancy s spaceshipId moduleId slotType slotIndex = .ok () := by
    intro hc
    simp only [validateInstallSlotCheck] at hc
    repeat' split at hc
    all_goals try cases hc
    all_goals exact ⟨_, _, by assumption, by assumption, by assumption⟩
  simp only [validateInstallModule] at h
  repeat' split at h
  all_goals try cases h
  all_goals
    exact ⟨by assumption, by omega, by omega, by omega, by omega, by omega, by omega,
      by omega, by omega, hslot (by assumption)⟩

set_option maxHeartbeats 1600000 in
theorem executeInstallModule_ok_inv {s : WorldState}
    {spaceshipId moduleId planetHash : Nat} {s' : WorldState}
    (hok : executeInstallModule s spaceshipId moduleId planetHash = .ok s') :
    ∃ slotType slotIndex,
      getSlotTypeForModuleType (s.moduleTypeOf moduleId) = .ok slotType ∧
      getSlotIndexForSlotType slotType = .ok slotIndex ∧
      (Bonus.add (s.shipBonus spaceshipId) (s.moduleBonus moduleId)).le16 = true ∧
      s' = deleteArtifactOwner
        (writePlanet
          { s with
            slot := Function.update s.slot spaceshipId
              (Function.update (s.slot spaceshipId) slotIndex ⟨slotType, moduleId⟩)
            installedTable :=
              Function.update s.installedTable moduleId ⟨spaceshipId, slotType, true⟩
            shipBonus := Function.update s.shipBonus spaceshipId
              (Bonus.add (s.shipBonus spaceshipId) (s.moduleBonus moduleId)) }
          planetHash
          { s.planets planetHash with
            artifacts := (s.planets planetHash).artifacts.erase moduleId }) moduleId := by
  simp only [executeInstallModule] at hok
  repeat' split at hok
  all_goals try cases hok
  all_goals
    exact ⟨_, _, by assumption, by assumption, by exact bool_ne_false (by assumption), rfl⟩

theorem installModule_ok_inv {env : CallEnv} {s : WorldState}
    {spaceshipId moduleId planetHash : Nat} {s' : WorldState}
    (hok : installModule env s spaceshipId moduleId planetHash = .ok s') :
    ∃ slotType slotIndex,
      (s.planets planetHash).spaceType ≠ 0 ∧
      (s.planets planetHash).owner = env.caller ∧
      s.artifactOwner spaceshipId = planetHash ∧
      planetHash ≠ 0 ∧
      s.artifactIndexOf spaceshipId = 3 ∧
      s.artifactOwner moduleId = planetHash ∧
      s.artifactIndexOf moduleId = 23 ∧
      s.spaceshipTypeOf spaceshipId ≠ 0 ∧
      s.moduleTypeOf moduleId ≠ 0 ∧
      getSlotTypeForModuleType (s.moduleTypeOf moduleId) = .ok slotType ∧
      getSlotIndexForSlotType slotType = .ok slotIndex ∧
      validateSlotOccupancy s spaceshipId moduleId slotType slotIndex = .ok () ∧
      (Bonus.add (s.shipBonus spaceshipId) (s.moduleBonus moduleId)).le16 = true ∧
      s' = deleteArtifactOwner
        (writePlanet
          { s with
            slot := Function.update s.slot spaceshipId
              (Function.update (s.slot spaceshipId) slotIndex ⟨slotType, moduleId⟩)
            installedTable :=
              Function.update s.installedTable moduleId ⟨spaceshipId, slotType, true⟩
            shipBonus := Function.update s.shipBonus spaceshipId
              (Bonus.add (s.shipBonus spaceshipId) (s.moduleBonus moduleId)) }
          planetHash
          { s.planets planetHash with
            artifacts := (s.planets planetHash).artifacts.erase moduleId }) moduleId := by
  simp only [installModule] at hok
  split at hok
  · cases hok
  · rename_i u hval
    obtain ⟨h1, h2, h3, h4, h5, h6, h7, h8, h9, st, si, hst, hsi, hocc⟩ :=
      validateInstallModule_ok hval
    obtain ⟨st2, si2, hst2, hsi2, hle, hs'⟩ := executeInstallModule_ok_inv hok
    rw [hst] at hst2
    cases hst2
    rw [hsi] at hsi2
    cases hsi2
    exact ⟨st, si, h1, h2, h3, h4, h5, h6, h7, h8, h9, hst, hsi, hocc, hle, hs'⟩

set_option maxHeartbeats 1600000 in
theorem validateUninstallModule_ok {env : CallEnv} {s : WorldState}
    {spaceshipId moduleId planetHash : Nat}
    (h : validateUninstallModule env s spaceshipId moduleId planetHash = .ok ()) :
    (s.planets planetHash).spaceType ≠ 0 ∧
    (s.planets planetHash).owner = env.caller ∧
    spaceshipId ∈ (s.planets planetHash).artifacts ∧
    (s.installedTable moduleId).artifactId = spaceshipId := by
  simp only [validateUninstallModule] at h
  repeat' split at h
  all_goals try cases h
  all_goals exact ⟨by assumption, by omega, by assumption, by omega⟩

set_option maxHeartbeats 1600000 in
theorem executeUninstallModule_ok_inv {s : WorldState}
    {spaceshipId moduleId planetHash : Nat} {s' : WorldState}
    (hok : executeUninstallModule s spaceshipId moduleId planetHash = .ok s') :
    ∃ slotIndex,
      getSlotIndexForSlotType (s.installedTable moduleId).moduleSlotType = .ok slotIndex ∧
      (s.planets planetHash).artifacts.length < (s.planets planetHash).artifactCap ∧
      s' = writePlanet
        { s with
          shipBonus := Function.update s.shipBonus spaceshipId
            (Bonus.subFloor (s.shipBonus spaceshipId) (s.moduleBonus moduleId))
          slot := Function.update s.slot spaceshipId
            (Function.update (s.slot spaceshipId) slotIndex
              ⟨(s.installedTable moduleId).moduleSlotType, 0⟩)
          installedTable := Function.update s.installedTable moduleId ⟨0, 0, false⟩ }
        planetHash
        { s.planets planetHash with
          artifacts := (s.planets planetHash).artifacts ++ [moduleId] } := by
  simp only [executeUninstallModule] at hok
  repeat' split at hok
  all_goals try cases hok
  all_goals exact ⟨_, by assumption, by assumption, rfl⟩

theorem uninstallModule_ok_inv {env : CallEnv} {s : WorldState}
    {spaceshipId moduleId planetHash : Nat} {s' : WorldState}
    (hok : uninstallModule env s spaceshipId moduleId planetHash = .ok s') :
    ∃ slotIndex,
      (s.planets planetHash).spaceType ≠ 0 ∧
      (s.planets planetHash).owner = env.caller ∧
      spaceshipId ∈ (s.planets planetHash).artifacts ∧
      (s.installedTable moduleId).artifactId = spaceshipId ∧
      getSlotIndexForSlotType (s.installedTable moduleId).moduleSlotType = .ok slotIndex ∧
      (s.planets planetHash).artifacts.length < (s.planets planetHash).artifactCap ∧
      s' = writePlanet
        { s with
          shipBonus := Function.update s.shipBonus spaceshipId
            (Bonus.subFloor (s.shipBonus spaceshipId) (s.moduleBonus moduleId))
          slot := Function.update s.slot spaceshipId
            (Function.update (s.slot spaceshipId) slotIndex
              ⟨(s.installedTable moduleId).moduleSlotType, 0⟩)
          installedTable := Function.update s.installedTable moduleId ⟨0, 0, false⟩ }
        planetHash
        { s.planets planetHash with
          artifacts := (s.planets planetHash).artifacts ++ [moduleId] } := by
  simp only [uninstallModule] at hok
  split at hok
  · cases hok
  · rename_i u hval
    obtain ⟨h1, h2, h3, h4⟩ := validateUninstallModule_ok hval
    obtain ⟨si, hsi, hcap, hs'⟩ := executeUninstallModule_ok_inv hok
    exact ⟨si, h1, h2, h3, h4, hsi, hcap, hs'⟩

theorem upgradeFoundry_ok_inv {env : CallEnv} {s : WorldState} {h : Nat} {s' : WorldState}
    (hok : upgradeFoundry env s h = .ok s') :
    (s.planets h).spaceType ≠ 0 ∧ (s.planets h).owner = env.caller ∧
    (s.planets h).planetType = FOUNDRY ∧ 4 ≤ (s.planets h).level ∧
    s.upgradeLevel h < 2 ∧
    s' = writePlanet
      { s with upgradeLevel := Function.update s.upgradeLevel h (s.upgradeLevel h + 1) }
      h (s.planets h) := by
  simp only [upgradeFoundry] at hok
  repeat' split at hok
  all_goals try cases hok
  refine ⟨?_, ?_, ?_, ?_, ?_, rfl⟩ <;> first | assumption | omega

theorem relocateArtifact_ok_inv {s : WorldState} {artifactId fromHash toHash : Nat}
    {s' : WorldState}
    (hok : relocateArtifact s artifactId fromHash toHash = .ok s') :
    fromHash ≠ toHash ∧
    artifactId ∈ (s.planets fromHash).artifacts ∧
    (s.planets toHash).artifacts.length < (s.planets toHash).artifactCap ∧
    s' = writePlanet
      (writePlanet s fromHash
        { s.planets fromHash with
          artifacts := (s.planets fromHash).artifacts.erase artifactId })
      toHash
      { s.planets toHash with
        artifacts := (s.planets toHash).artifacts ++ [artifactId] } := by
  simp only [relocateArtifact] at hok
  repeat' split at hok
  all_goals try cases hok
  refine ⟨?_, ?_, ?_, rfl⟩ <;> assumption

theorem bonusSum_of_eq (s' s : WorldState)
    (hit : ∀ m, s'.installedTable m = s.installedTable m)
    (hsb : ∀ x, s'.shipBonus x = s.shipBonus x)
    (hmb : ∀ m, s'.moduleBonus m = s.moduleBonus m)
    (ht : ∀ x, s'.spaceshipTypeOf x = s.spaceshipTypeOf x)
    (hbi : ∀ x, s'.shipBiome x = s.shipBiome x)
    (hra : ∀ x, s'.shipRarity x = s.shipRarity x)
    (hb : ∀ shipId, ∃ L : List Nat, L.Nodup ∧ (∀ m, m ∈ L ↔ installedOn s shipId m) ∧
        s.shipBonus shipId = Bonus.add (shipBase s shipId) (modulesSum s L)) :
    ∀ shipId, ∃ L : List Nat, L.Nodup ∧ (∀ m, m ∈ L ↔ installedOn s' shipId m) ∧
        s'.shipBonus shipId = Bonus.add (shipBase s' shipId) (modulesSum s' L) := by
  intro shipId
  obtain ⟨L, hnd, hchar, hsum⟩ := hb shipId
  refine ⟨L, hnd, ?_, ?_⟩
  · intro m
    unfold installedOn
    rw [hit m]
    exact hchar m
  · rw [hsb, shipBase_ext (ht shipId) (hbi shipId) (hra shipId),
      modulesSum_congr (fun m _ => hmb m)]
    exact hsum

theorem inv_init {s : WorldState} (h : InitState s) : Inv s := by
  obtain ⟨hart, hown, hidx, hstype, hmtype, hsb, hmb, hinst, hslot, hcc, hup⟩ := h
  refine ⟨?_, ?_, ?_, ?_, ?_, ?_, ?_⟩
  · intro shipId
    refine ⟨[], List.nodup_nil, ?_, ?_⟩
    · intro m
      simp [installedOn, hinst m]
    · simp [modulesSum, shipBase, hstype shipId, hsb shipId, bonus_add_zero]
  · intro m hm
    rw [hinst m] at hm
    cases hm
  · intro m _
    exact hinst m
  · intro m h0 hmem
    rw [hart h0] at hmem
    cases hmem
  · intro h0
    rw [hart h0]
    exact List.nodup_nil
  · exact hidx 0
  · intro h0
    rw [hcc h0, hup h0]
    omega

theorem inv_upgrade {env : CallEnv} {s : WorldState} {h : Nat} {s' : WorldState}
    (inv : Inv s) (hok : upgradeFoundry env s h = .ok s') : Inv s' := by
  obtain ⟨h1, h2, h3, h4, h5, hs'⟩ := upgradeFoundry_ok_inv hok
  subst hs'
  refine ⟨bonusSum_of_eq _ s (fun _ => rfl) (fun _ => rfl) (fun _ => rfl) (fun _ => rfl)
      (fun _ => rfl) (fun _ => rfl) inv.bonusSum, ?_, inv.notInstalled, ?_, ?_, inv.zeroId, ?_⟩
  · intro m hm
    obtain ⟨ho1, ho2, ho3, ho4, ho5, ho6, ho7⟩ := inv.installedOff m hm
    refine ⟨?_, ?_, ho3, ho4, ho5, ho6, ho7⟩
    · simp only [writePlanet_artifactOwner]
      rw [if_neg (ho2 h)]
      exact ho1
    · intro h0
      simp only [writePlanet_planets, Function.update_apply]
      split
      · exact ho2 h
      · exact ho2 h0
  · intro m h0 hmem
    simp only [writePlanet_planets, Function.update_apply] at hmem
    by_cases hh : h0 = h
    · subst hh
      rw [if_pos rfl] at hmem
      obtain ⟨hm1, hm2⟩ := inv.memberOwner m h0 hmem
      refine ⟨?_, hm2⟩
      simp only [writePlanet_artifactOwner]
      rw [if_pos hmem]
    · rw [if_neg hh] at hmem
      obtain ⟨hm1, hm2⟩ := inv.memberOwner m h0 hmem
      refine ⟨?_, hm2⟩
      simp only [writePlanet_artifactOwner]
      have : m ∉ (s.planets h).artifacts := by
        intro hc
        exact hh ((hm1.symm.trans (inv.memberOwner m h hc).1).symm ▸ rfl)
      rw [if_neg this]
      exact hm1
  · intro h0
    simp only [writePlanet_planets, Function.update_apply]
    split
    · exact inv.artifactsNodup h
    · exact inv.artifactsNodup h0
  · intro h0
    have hb := inv.craftBound h0
    by_cases hh : h0 = h
    · subst hh
      constructor
      · show s.craftCount h0 ≤ 1 + Function.update s.upgradeLevel h0 (s.upgradeLevel h0 + 1) h0
        rw [Function.update_same]
        omega
      · show Function.update s.upgradeLevel h0 (s.upgradeLevel h0 + 1) h0 ≤ 2
        rw [Function.update_same]
        omega
    · constructor
      · show s.craftCount h0 ≤ 1 + Function.update s.upgradeLevel h (s.upgradeLevel h + 1) h0
        rw [Function.update_noteq hh]
        omega
      · show Function.update s.upgradeLevel h (s.upgradeLevel h + 1) h0 ≤ 2
        rw [Function.update_noteq hh]
        omega

theorem inv_relocate {s : WorldState} {a fromHash toHash : Nat} {s' : WorldState}
    (inv : Inv s) (hok : relocateArtifact s a fromHash toHash = .ok s') : Inv s' := by
  obtain ⟨hne, hmem, hcap, hs'⟩ := relocateArtifact_ok_inv hok
  have howner : s.artifactOwner a = fromHash := (inv.memberOwner a fromHash hmem).1
  have hidxa : s.artifactIndexOf a ≠ 0 := (inv.memberOwner a fromHash hmem).2
  subst hs'
  have hOwn : ∀ x,
      (writePlanet
        (writePlanet s fromHash
          { s.planets fromHash with
            artifacts := (s.planets fromHash).artifacts.erase a })
        toHash
        { s.planets toHash with
          artifacts := (s.planets toHash).artifacts ++ [a] }).artifactOwner x =
      if x ∈ (s.planets toHash).artifacts ++ [a] then toHash
      else if x ∈ (s.planets fromHash).artifacts.erase a then fromHash
      else s.artifactOwner x := fun x => rfl
  have hPl : ∀ h0,
      (writePlanet
        (writePlanet s fromHash
          { s.planets fromHash with
            artifacts := (s.planets fromHash).artifacts.erase a })
        toHash
        { s.planets toHash with
          artifacts := (s.planets toHash).artifacts ++ [a] }).planets h0 =
      Function.update
        (Function.update s.planets fromHash
          { s.planets fromHash with
            artifacts := (s.planets fromHash).artifacts.erase a })
        toHash
        { s.planets toHash with
          artifacts := (s.planets toHash).artifacts ++ [a] } h0 := fun _ => rfl
  have hsubF : ∀ {m : Nat}, m ∈ (s.planets fromHash).artifacts.erase a →
      m ∈ (s.planets fromHash).artifacts := fun hc => List.erase_subset _ _ hc
  refine ⟨bonusSum_of_eq _ s (fun _ => rfl) (fun _ => rfl) (fun _ => rfl) (fun _ => rfl)
      (fun _ => rfl) (fun _ => rfl) inv.bonusSum, ?_, inv.notInstalled, ?_, ?_, inv.zeroId,
      inv.craftBound⟩
  · intro m hm
    obtain ⟨ho1, ho2, ho3, ho4, ho5, ho6, ho7⟩ := inv.installedOff m hm
    have hma : m ≠ a := fun e => (ho2 fromHash) (e ▸ hmem)
    have hmt : m ∉ (s.planets toHash).artifacts ++ [a] := by
      intro hc
      rcases List.mem_append.mp hc with hc1 | hc2
      · exact ho2 toHash hc1
      · exact hma (List.mem_singleton.mp hc2)
    have hmf : m ∉ (s.planets fromHash).artifacts.erase a :=
      fun hc => ho2 fromHash (hsubF hc)
    refine ⟨?_, ?_, ho3, ho4, ho5, ho6, ho7⟩
    · rw [hOwn m, if_neg hmt, if_neg hmf]
      exact ho1
    · intro h0
      rw [hPl h0]
      by_cases hh0 : h0 = toHash
      · rw [hh0, Function.update_same]
        exact hmt
      · rw [Function.update_noteq hh0]
        by_cases hh1 : h0 = fromHash
        · rw [hh1, Function.update_same]
          exact hmf
        · rw [Function.update_noteq hh1]
          exact ho2 h0
  · intro m h0 hmem0
    rw [hPl h0] at hmem0
    rw [hOwn m]
    by_cases hh0 : h0 = toHash
    · rw [hh0] at hmem0 ⊢
      rw [Function.update_same] at hmem0
      have hmem1 : m ∈ (s.planets toHash).artifacts ++ [a] := hmem0
      rw [if_pos hmem1]
      refine ⟨rfl, ?_⟩
      rcases List.mem_append.mp hmem1 with hc1 | hc2
      · exact (inv.memberOwner m toHash hc1).2
      · rw [List.mem_singleton.mp hc2]
        exact hidxa
    · rw [Function.update_noteq hh0] at hmem0
      by_cases hh1 : h0 = fromHash
      · rw [hh1] at hmem0 ⊢
        rw [Function.update_same] at hmem0
        have hmem1 : m ∈ (s.planets fromHash).artifacts.erase a := hmem0
        obtain ⟨hma2, hmold⟩ := ((inv.artifactsNodup fromHash).mem_erase_iff).mp hmem1
        have hown := (inv.memberOwner m fromHash hmold).1
        have hmt : m ∉ (s.planets toHash).artifacts ++ [a] := by
          intro hc
          rcases List.mem_append.mp hc with hc1 | hc2
          · have hx := (inv.memberOwner m toHash hc1).1
            rw [hown] at hx
            exact hne hx
          · exact hma2 (List.mem_singleton.mp hc2)
        rw [if_neg hmt, if_pos hmem1]
        exact ⟨rfl, (inv.memberOwner m fromHash hmold).2⟩
      · rw [Function.update_noteq hh1] at hmem0
        obtain ⟨hown, hidxm⟩ := inv.memberOwner m h0 hmem0
        have hmna : m ≠ a := by
          intro e
          rw [e, howner] at hown
          exact hh1 hown.symm
        have hmt : m ∉ (s.planets toHash).artifacts ++ [a] := by
          intro hc
          rcases List.mem_append.mp hc with hc1 | hc2
          · have hx := (inv.memberOwner m toHash hc1).1
            rw [hown] at hx
            exact hh0 hx
          · exact hmna (List.mem_singleton.mp hc2)
        have hmf : m ∉ (s.planets fromHash).artifacts.erase a := by
          intro hc
          have hx := (inv.memberOwner m fromHash (hsubF hc)).1
          rw [hown] at hx
          exact hh1 hx
        rw [if_neg hmt, if_neg hmf]
        exact ⟨hown, hidxm⟩
  · intro h0
    rw [hPl h0]
    by_cases hh0 : h0 = toHash
    · rw [hh0, Function.update_same]
      show ((s.planets toHash).artifacts ++ [a]).Nodup
      refine (inv.artifactsNodup toHash).append (List.nodup_singleton a) ?_
      intro x hx hxa
      rw [List.mem_singleton.mp hxa] at hx
      have hx2 := (inv.memberOwner a toHash hx).1
      rw [howner] at hx2
      exact hne hx2
    · rw [Function.update_noteq hh0]
      by_cases hh1 : h0 = fromHash
      · rw [hh1, Function.update_same]
        exact (inv.artifactsNodup fromHash).erase a
      · rw [Function.update_noteq hh1]
        exact inv.artifactsNodup h0

theorem consumeMaterials_shape {l : List (Nat × Nat)} :
    ∀ {p p' : PlanetData}, consumeMaterials p l = .ok p' →
      p'.artifacts = p.artifacts ∧ p'.artifactCap = p.artifactCap ∧
      p'.owner = p.owner ∧ p'.planetType = p.planetType ∧ p'.spaceType = p.spaceType ∧
      p'.level = p.level ∧ p'.perlin = p.perlin := by
  induction l with
  | nil =>
    intro p p' h
    simp only [consumeMaterials] at h
    cases h
    exact ⟨rfl, rfl, rfl, rfl, rfl, rfl, rfl⟩
  | cons hd tl ih =>
    intro p p' h
    obtain ⟨m, a⟩ := hd
    simp only [consumeMaterials] at h
    split at h
    · cases h
    · obtain ⟨a1, a2, a3, a4, a5, a6, a7⟩ := ih h
      exact ⟨a1, a2, a3, a4, a5, a6, a7⟩

theorem inv_craftModule {cfg : Cfg} {env : CallEnv} {s : WorldState}
    {foundryHash moduleType : Nat} {materials amounts : List Nat} {biome : Nat}
    {s' : WorldState} (inv : Inv s)
    (hok : craftModule cfg env s foundryHash moduleType materials amounts biome = .ok s') :
    Inv s' := by
  obtain ⟨recipe, foundry1, hrec, hval, hcons, hsp, hown, hpt, hlvl, hmt1, hmt4, hcount,
    hnew, hidx0, hcap, hs'⟩ := craftModule_ok_inv hok
  obtain ⟨hfa, hfc, _, _, _, _, _⟩ := consumeMaterials_shape hcons
  have hnewNot : ∀ h0, env.newId ∉ (s.planets h0).artifacts :=
    fun h0 hc => (inv.memberOwner _ h0 hc).2 hidx0
  have hIT : ∀ m, s'.installedTable m = s.installedTable m := by
    rw [hs']
    exact fun _ => rfl
  have hSB : ∀ x, s'.shipBonus x = s.shipBonus x := by
    rw [hs']
    exact fun _ => rfl
  have hST : ∀ x, s'.spaceshipTypeOf x = s.spaceshipTypeOf x := by
    rw [hs']
    exact fun _ => rfl
  have hSBi : ∀ x, s'.shipBiome x = s.shipBiome x := by
    rw [hs']
    exact fun _ => rfl
  have hSRa : ∀ x, s'.shipRarity x = s.shipRarity x := by
    rw [hs']
    exact fun _ => rfl
  have hMB : ∀ m, m ≠ env.newId → s'.moduleBonus m = s.moduleBonus m := by
    intro m hm
    rw [hs']
    exact Function.update_noteq hm _ _
  have hIDX : ∀ m, m ≠ env.newId → s'.artifactIndexOf m = s.artifactIndexOf m := by
    intro m hm
    rw [hs']
    exact Function.update_noteq hm _ _
  have hIDXnew : s'.artifactIndexOf env.newId = 23 := by
    rw [hs']
    exact Function.update_same _ _ _
  have hPLne : ∀ h0, h0 ≠ foundryHash → s'.planets h0 = s.planets h0 := by
    intro h0 hh0
    rw [hs']
    exact Function.update_noteq hh0 _ _
  have hPLfh : (s'.planets foundryHash).artifacts =
      (s.planets foundryHash).artifacts ++ [env.newId] := by
    rw [hs']
    simp only [writePlanet_planets, Function.update_same]
    rw [hfa]
  have hOWN : ∀ x, s'.artifactOwner x =
      if x ∈ (s.planets foundryHash).artifacts ++ [env.newId] then foundryHash
      else s.artifactOwner x := by
    rw [hs', ← hfa]
    exact fun _ => rfl
  have hCCfh : s'.craftCount foundryHash = s.craftCount foundryHash + 1 := by
    rw [hs']
    exact Function.update_same _ _ _
  have hCCne : ∀ h0, h0 ≠ foundryHash → s'.craftCount h0 = s.craftCount h0 := by
    intro h0 hh0
    rw [hs']
    exact Function.update_noteq hh0 _ _
  have hUP : ∀ h0, s'.upgradeLevel h0 = s.upgradeLevel h0 := by
    rw [hs']
    exact fun _ => rfl
  refine ⟨?_, ?_, ?_, ?_, ?_, ?_, ?_⟩
  · intro ship
    obtain ⟨L, hnd, hchar, hsum⟩ := inv.bonusSum ship
    refine ⟨L, hnd, ?_, ?_⟩
    · intro m
      unfold installedOn
      rw [hIT m]
      exact hchar m
    · rw [hSB ship, shipBase_ext (hST ship) (hSBi ship) (hSRa ship),
        modulesSum_congr (fun m hm => hMB m ?_)]
      · exact hsum
      · intro e
        have hinst := ((hchar m).mp hm).1
        have h23 := (inv.installedOff m hinst).2.2.1
        rw [e, hidx0] at h23
        cases h23
  · intro m hm
    rw [hIT m] at hm
    obtain ⟨ho1, ho2, ho3, ho4, ho5, ho6, ho7⟩ := inv.installedOff m hm
    have hmn : m ≠ env.newId := by
      intro e
      rw [e, hidx0] at ho3
      cases ho3
    have hnotf : m ∉ (s.planets foundryHash).artifacts ++ [env.newId] := by
      intro hc
      rcases List.mem_append.mp hc with hc1 | hc2
      · exact ho2 foundryHash hc1
      · exact hmn (List.mem_singleton.mp hc2)
    refine ⟨?_, ?_, ?_, ?_, ?_, ?_, ?_⟩
    · rw [hOWN m, if_neg hnotf]
      exact ho1
    · intro h0
      by_cases hh0 : h0 = foundryHash
      · rw [hh0]
        intro hc
        rw [hPLfh] at hc
        exact hnotf hc
      · rw [hPLne h0 hh0]
        exact ho2 h0
    · rw [hIDX m hmn]
      exact ho3
    · rw [hIT m]
      exact ho4
    · rw [hIT m]
      rw [hIDX _ ?_]
      · exact ho5
      · intro e
        rw [e, hidx0] at ho5
        cases ho5
    · rw [hIT m]
      exact ho6
    · rw [hIT m]
      exact ho7
  · intro m hm
    rw [hIT m] at hm ⊢
    exact inv.notInstalled m hm
  · intro m h0 hmem0
    by_cases hh0 : h0 = foundryHash
    · rw [hh0] at hmem0 ⊢
      rw [hPLfh] at hmem0
      rw [hOWN m, if_pos hmem0]
      refine ⟨rfl, ?_⟩
      rcases List.mem_append.mp hmem0 with hc1 | hc2
      · rw [hIDX m ?_]
        · exact (inv.memberOwner m foundryHash hc1).2
        · intro e
          exact hnewNot foundryHash (e ▸ hc1)
      · rw [List.mem_singleton.mp hc2, hIDXnew]
        decide
    · rw [hPLne h0 hh0] at hmem0
      obtain ⟨hmo, hmi⟩ := inv.memberOwner m h0 hmem0
      have hmn : m ≠ env.newId := by
        intro e
        exact hnewNot h0 (e ▸ hmem0)
      have hnotf : m ∉ (s.planets foundryHash).artifacts ++ [env.newId] := by
        intro hc
        rcases List.mem_append.mp hc with hc1 | hc2
        · have := (inv.memberOwner m foundryHash hc1).1
          rw [hmo] at this
          exact hh0 this
        · exact hmn (List.mem_singleton.mp hc2)
      rw [hOWN m, if_neg hnotf]
      refine ⟨hmo, ?_⟩
      rw [hIDX m hmn]
      exact hmi
  · intro h0
    by_cases hh0 : h0 = foundryHash
    · rw [hh0, hPLfh]
      refine (inv.artifactsNodup foundryHash).append (List.nodup_singleton _) ?_
      intro x hx hxa
      rw [List.mem_singleton.mp hxa] at hx
      exact hnewNot foundryHash hx
    · rw [hPLne h0 hh0]
      exact inv.artifactsNodup h0
  · rw [hIDX 0 (fun e => hnew e.symm)]
    exact inv.zeroId
  · intro h0
    rw [hUP h0]
    by_cases hh0 : h0 = foundryHash
    · rw [hh0, hCCfh]
      have := inv.craftBound foundryHash
      constructor
      · omega
      · omega
    · rw [hCCne h0 hh0]
      exact inv.craftBound h0

theorem inv_craftSpaceship {cfg : Cfg} {env : CallEnv} {s : WorldState}
    {foundryHash spaceshipType : Nat} {materials amounts : List Nat} {biome : Nat}
    {s' : WorldState} (inv : Inv s)
    (hok : craftSpaceship cfg env s foundryHash spaceshipType materials amounts biome = .ok s') :
    Inv s' := by
  obtain ⟨recipe, foundry1, hrec, hval, hcons, hsp, hown, hpt, hlvl, hmt1, hmt4, hcount,
    hnew, hidx0, hcap, hs'⟩ := craftSpaceship_ok_inv hok
  obtain ⟨hfa, hfc, _, _, _, _, _⟩ := consumeMaterials_shape hcons
  have hnewNot : ∀ h0, env.newId ∉ (s.planets h0).artifacts :=
    fun h0 hc => (inv.memberOwner _ h0 hc).2 hidx0
  have hIT : ∀ m, s'.installedTable m = s.installedTable m := by
    rw [hs']
    exact fun _ => rfl
  have hMB : ∀ m, s'.moduleBonus m = s.moduleBonus m := by
    rw [hs']
    exact fun _ => rfl
  have hSB : ∀ x, x ≠ env.newId → s'.shipBonus x = s.shipBonus x := by
    intro x hx
    rw [hs']
    exact Function.update_noteq hx _ _
  have hSBnew : s'.shipBonus env.newId =
      spaceshipBonusFor
        (if biome = 0 ∨ biome > BIOME_MAX
         then calculateBiomeFromPlanet cfg foundryHash (s.planets foundryHash) else biome)
        (calculateSpaceshipRarity (s.planets foundryHash).level env.seed) spaceshipType := by
    rw [hs']
    exact Function.update_same _ _ _
  have hST : ∀ x, x ≠ env.newId → s'.spaceshipTypeOf x = s.spaceshipTypeOf x := by
    intro x hx
    rw [hs']
    exact Function.update_noteq hx _ _
  have hSTnew : s'.spaceshipTypeOf env.newId = spaceshipType := by
    rw [hs']
    exact Function.update_same _ _ _
  have hSBi : ∀ x, x ≠ env.newId → s'.shipBiome x = s.shipBiome x := by
    intro x hx
    rw [hs']
    exact Function.update_noteq hx _ _
  have hSBinew : s'.shipBiome env.newId =
      (if biome = 0 ∨ biome > BIOME_MAX
       then calculateBiomeFromPlanet cfg foundryHash (s.planets foundryHash) else biome) := by
    rw [hs']
    exact Function.update_same _ _ _
  have hSRa : ∀ x, x ≠ env.newId → s'.shipRarity x = s.shipRarity x := by
    intro x hx
    rw [hs']
    exact Function.update_noteq hx _ _
  have hSRanew : s'.shipRarity env.newId =
      calculateSpaceshipRarity (s.planets foundryHash).level env.seed := by
    rw [hs']
    exact Function.update_same _ _ _
  have hIDX : ∀ m, m ≠ env.newId → s'.artifactIndexOf m = s.artifactIndexOf m := by
    intro m hm
    rw [hs']
    exact Function.update_noteq hm _ _
  have hIDXnew : s'.artifactIndexOf env.newId = 3 := by
    rw [hs']
    exact Function.update_same _ _ _
  have hPLne : ∀ h0, h0 ≠ foundryHash → s'.planets h0 = s.planets h0 := by
    intro h0 hh0
    rw [hs']
    exact Function.update_noteq hh0 _ _
  have hPLfh : (s'.planets foundryHash).artifacts =
      (s.planets foundryHash).artifacts ++ [env.newId] := by
    rw [hs']
    simp only [writePlanet_planets, Function.update_same]
    rw [hfa]
  have hOWN : ∀ x, s'.artifactOwner x =
      if x ∈ (s.planets foundryHash).artifacts ++ [env.newId] then foundryHash
      else s.artifactOwner x := by
    rw [hs', ← hfa]
    exact fun _ => rfl
  have hCCfh : s'.craftCount foundryHash = s.craftCount foundryHash + 1 := by
    rw [hs']
    exact Function.update_same _ _ _
  have hCCne : ∀ h0, h0 ≠ foundryHash → s'.craftCount h0 = s.craftCount h0 := by
    intro h0 hh0
    rw [hs']
    exact Function.update_noteq hh0 _ _
  have hUP : ∀ h0, s'.upgradeLevel h0 = s.upgradeLevel h0 := by
    rw [hs']
    exact fun _ => rfl
  have hNoInst : ∀ m, ¬ installedOn s env.newId m := by
    intro m hm
    obtain ⟨hi, ha⟩ := hm
    have h3 := (inv.installedOff m hi).2.2.2.2.1
    rw [ha, hidx0] at h3
    cases h3
  refine ⟨?_, ?_, ?_, ?_, ?_, ?_, ?_⟩
  · intro ship
    by_cases hshipn : ship = env.newId
    · rw [hshipn]
      refine ⟨[], List.nodup_nil, ?_, ?_⟩
      · intro m
        unfold installedOn
        rw [hIT m]
        constructor
        · intro hc
          exact absurd hc (List.not_mem_nil m)
        · intro hP
          exact absurd hP (hNoInst m)
      · rw [hSBnew]
        have hbase : shipBase s' env.newId =
            spaceshipBonusFor
              (if biome = 0 ∨ biome > BIOME_MAX
               then calculateBiomeFromPlanet cfg foundryHash (s.planets foundryHash) else biome)
              (calculateSpaceshipRarity (s.planets foundryHash).level env.seed) spaceshipType := by
          unfold shipBase
          rw [hSTnew, hSBinew, hSRanew, if_neg (by omega)]
        rw [hbase]
        exact (bonus_add_zero _).symm
    · obtain ⟨L, hnd, hchar, hsum⟩ := inv.bonusSum ship
      refine ⟨L, hnd, ?_, ?_⟩
      · intro m
        unfold installedOn
        rw [hIT m]
        exact hchar m
      · rw [hSB ship hshipn, shipBase_ext (hST ship hshipn) (hSBi ship hshipn)
          (hSRa ship hshipn), modulesSum_congr (fun m _ => hMB m)]
        exact hsum
  · intro m hm
    rw [hIT m] at hm
    obtain ⟨ho1, ho2, ho3, ho4, ho5, ho6, ho7⟩ := inv.installedOff m hm
    have hmn : m ≠ env.newId := by
      intro e
      rw [e, hidx0] at ho3
      cases ho3
    have hnotf : m ∉ (s.planets foundryHash).artifacts ++ [env.newId] := by
      intro hc
      rcases List.mem_append.mp hc with hc1 | hc2
      · exact ho2 foundryHash hc1
      · exact hmn (List.mem_singleton.mp hc2)
    refine ⟨?_, ?_, ?_, ?_, ?_, ?_, ?_⟩
    · rw [hOWN m, if_neg hnotf]
      exact ho1
    · intro h0
      by_cases hh0 : h0 = foundryHash
      · rw [hh0]
        intro hc
        rw [hPLfh] at hc
        exact hnotf hc
      · rw [hPLne h0 hh0]
        exact ho2 h0
    · rw [hIDX m hmn]
      exact ho3
    · rw [hIT m]
      exact ho4
    · rw [hIT m]
      rw [hIDX _ ?_]
      · exact ho5
      · intro e
        rw [e, hidx0] at ho5
        cases ho5
    · rw [hIT m]
      exact ho6
    · rw [hIT m]
      exact ho7
  · intro m hm
    rw [hIT m] at hm ⊢
    exact inv.notInstalled m hm
  · intro m h0 hmem0
    by_cases hh0 : h0 = foundryHash
    · rw [hh0] at hmem0 ⊢
      rw [hPLfh] at hmem0
      rw [hOWN m, if_pos hmem0]
      refine ⟨rfl, ?_⟩
      rcases List.mem_append.mp hmem0 with hc1 | hc2
      · rw [hIDX m ?_]
        · exact (inv.memberOwner m foundryHash hc1).2
        · intro e
          exact hnewNot foundryHash (e ▸ hc1)
      · rw [List.mem_singleton.mp hc2, hIDXnew]
        decide
    · rw [hPLne h0 hh0] at hmem0
      obtain ⟨hmo, hmi⟩ := inv.memberOwner m h0 hmem0
      have hmn : m ≠ env.newId := by
        intro e
        exact hnewNot h0 (e ▸ hmem0)
      have hnotf : m ∉ (s.planets foundryHash).artifacts ++ [env.newId] := by
        intro hc
        rcases List.mem_append.mp hc with hc1 | hc2
        · have hx := (inv.memberOwner m foundryHash hc1).1
          rw [hmo] at hx
          exact hh0 hx
        · exact hmn (List.mem_singleton.mp hc2)
      rw [hOWN m, if_neg hnotf]
      refine ⟨hmo, ?_⟩
      rw [hIDX m hmn]
      exact hmi
  · intro h0
    by_cases hh0 : h0 = foundryHash
    · rw [hh0, hPLfh]
      refine (inv.artifactsNodup foundryHash).append (List.nodup_singleton _) ?_
      intro x hx hxa
      rw [List.mem_singleton.mp hxa] at hx
      exact hnewNot foundryHash hx
    · rw [hPLne h0 hh0]
      exact inv.artifactsNodup h0
  · rw [hIDX 0 (fun e => hnew e.symm)]
    exact inv.zeroId
  · intro h0
    rw [hUP h0]
    by_cases hh0 : h0 = foundryHash
    · rw [hh0, hCCfh]
      have := inv.craftBound foundryHash
      constructor
      · omega
      · omega
    · rw [hCCne h0 hh0]
      exact inv.craftBound h0

theorem inv_install {env : CallEnv} {s : WorldState}
    {spaceshipId moduleId planetHash : Nat} {s' : WorldState} (inv : Inv s)
    (hok : installModule env s spaceshipId moduleId planetHash = .ok s') : Inv s' := by
  obtain ⟨st, si, h1, h2, h3, hph, h5, h6, h7, h8, h9, hst, hsi, hocc, hle, hs'⟩ :=
    installModule_ok_inv hok
  obtain ⟨hstmt, hmt1, hmt4⟩ := getSlotTypeForModuleType_ok hst
  have hModNotInst : (s.installedTable moduleId).installed = false := by
    by_contra hc
    have hx := (inv.installedOff moduleId (bool_ne_false hc)).1
    rw [h6] at hx
    exact hph hx
  have hShipNe0 : spaceshipId ≠ 0 := by
    intro e
    rw [e, inv.zeroId] at h5
    cases h5
  have hIT : ∀ m, m ≠ moduleId → s'.installedTable m = s.installedTable m := by
    intro m hm
    rw [hs']
    exact Function.update_noteq hm _ _
  have hITmod : s'.installedTable moduleId = ⟨spaceshipId, st, true⟩ := by
    rw [hs']
    exact Function.update_same _ _ _
  have hSB : ∀ x, x ≠ spaceshipId → s'.shipBonus x = s.shipBonus x := by
    intro x hx
    rw [hs']
    exact Function.update_noteq hx _ _
  have hSBship : s'.shipBonus spaceshipId =
      Bonus.add (s.shipBonus spaceshipId) (s.moduleBonus moduleId) := by
    rw [hs']
    exact Function.update_same _ _ _
  have hMB : ∀ m, s'.moduleBonus m = s.moduleBonus m := by
    rw [hs']
    exact fun _ => rfl
  have hST0 : ∀ x, s'.spaceshipTypeOf x = s.spaceshipTypeOf x := by
    rw [hs']
    exact fun _ => rfl
  have hSBi0 : ∀ x, s'.shipBiome x = s.shipBiome x := by
    rw [hs']
    exact fun _ => rfl
  have hSRa0 : ∀ x, s'.shipRarity x = s.shipRarity x := by
    rw [hs']
    exact fun _ => rfl
  have hIDXall : ∀ m, s'.artifactIndexOf m = s.artifactIndexOf m := by
    rw [hs']
    exact fun _ => rfl
  have hPLne : ∀ h0, h0 ≠ planetHash → s'.planets h0 = s.planets h0 := by
    intro h0 hh0
    rw [hs']
    exact Function.update_noteq hh0 _ _
  have hPLph : (s'.planets planetHash).artifacts =
      (s.planets planetHash).artifacts.erase moduleId := by
    rw [hs']
    simp only [deleteArtifactOwner_planets, writePlanet_planets, Function.update_same]
  have hOWNmod : s'.artifactOwner moduleId = 0 := by
    rw [hs']
    exact Function.update_same _ _ _
  have hOWNne : ∀ x, x ≠ moduleId → s'.artifactOwner x =
      if x ∈ (s.planets planetHash).artifacts.erase moduleId then planetHash
      else s.artifactOwner x := by
    intro x hx
    rw [hs']
    simp only [deleteArtifactOwner_artifactOwner]
    rw [Function.update_noteq hx]
    rfl
  have hCC : ∀ h0, s'.craftCount h0 = s.craftCount h0 := by
    rw [hs']
    exact fun _ => rfl
  have hUP : ∀ h0, s'.upgradeLevel h0 = s.upgradeLevel h0 := by
    rw [hs']
    exact fun _ => rfl
  refine ⟨?_, ?_, ?_, ?_, ?_, ?_, ?_⟩
  · intro ship0
    by_cases hship0 : ship0 = spaceshipId
    · rw [hship0]
      obtain ⟨L, hnd, hchar, hsum⟩ := inv.bonusSum spaceshipId
      have hModNotL : moduleId ∉ L := by
        intro hc
        have hx := ((hchar moduleId).mp hc).1
        rw [hModNotInst] at hx
        cases hx
      refine ⟨moduleId :: L, List.nodup_cons.mpr ⟨hModNotL, hnd⟩, ?_, ?_⟩
      · intro m
        unfold installedOn
        by_cases hm : m = moduleId
        · rw [hm, hITmod]
          simp
        · rw [hIT m hm, List.mem_cons]
          constructor
          · intro hc
            rcases hc with hc | hc
            · exact absurd hc hm
            · exact (hchar m).mp hc
          · intro hP
            exact Or.inr ((hchar m).mpr hP)
      · rw [hSBship, hsum, shipBase_ext (hST0 spaceshipId) (hSBi0 spaceshipId)
          (hSRa0 spaceshipId), modulesSum_cons, hMB moduleId,
          modulesSum_congr (fun m _ => hMB m)]
        exact bonus_add_rotate _ _ _
    · obtain ⟨L, hnd, hchar, hsum⟩ := inv.bonusSum ship0
      have hModNotL : moduleId ∉ L := by
        intro hc
        have hx := ((hchar moduleId).mp hc).1
        rw [hModNotInst] at hx
        cases hx
      refine ⟨L, hnd, ?_, ?_⟩
      · intro m
        unfold installedOn
        by_cases hm : m = moduleId
        · rw [hm, hITmod]
          constructor
          · intro hc
            exact absurd hc hModNotL
          · intro hP
            exact absurd hP.2.symm hship0
        · rw [hIT m hm]
          exact hchar m
      · rw [hSB ship0 hship0, hsum, shipBase_ext (hST0 ship0) (hSBi0 ship0) (hSRa0 ship0),
          modulesSum_congr (fun m _ => hMB m)]
  · intro m hm
    by_cases hm0 : m = moduleId
    · refine ⟨?_, ?_, ?_, ?_, ?_, ?_, ?_⟩
      · rw [hm0]
        exact hOWNmod
      · rw [hm0]
        intro h0
        by_cases hh0 : h0 = planetHash
        · rw [hh0, hPLph]
          intro hc
          exact (((inv.artifactsNodup planetHash).mem_erase_iff).mp hc).1 rfl
        · rw [hPLne h0 hh0]
          intro hc
          have hx := (inv.memberOwner moduleId h0 hc).1
          rw [h6] at hx
          exact hh0 hx.symm
      · rw [hm0]
        exact (hIDXall moduleId).trans h7
      · rw [hm0, hITmod]
        exact hShipNe0
      · rw [hm0, hITmod]
        exact (hIDXall spaceshipId).trans h5
      · rw [hm0, hITmod]
        show 1 ≤ st
        omega
      · rw [hm0, hITmod]
        show st ≤ 4
        omega
    · rw [hIT m hm0] at hm
      obtain ⟨ho1, ho2, ho3, ho4, ho5, ho6, ho7⟩ := inv.installedOff m hm
      refine ⟨?_, ?_, ?_, ?_, ?_, ?_, ?_⟩
      · rw [hOWNne m hm0]
        rw [if_neg (fun hc => ho2 planetHash (List.erase_subset _ _ hc))]
        exact ho1
      · intro h0
        by_cases hh0 : h0 = planetHash
        · rw [hh0, hPLph]
          intro hc
          exact ho2 planetHash (List.erase_subset _ _ hc)
        · rw [hPLne h0 hh0]
          exact ho2 h0
      · exact (hIDXall m).trans ho3
      · rw [hIT m hm0]
        exact ho4
      · rw [hIT m hm0]
        exact (hIDXall _).trans ho5
      · rw [hIT m hm0]
        exact ho6
      · rw [hIT m hm0]
        exact ho7
  · intro m hm
    by_cases hm0 : m = moduleId
    · rw [hm0, hITmod] at hm
      cases hm
    · rw [hIT m hm0] at hm ⊢
      exact inv.notInstalled m hm
  · intro m h0 hmem0
    by_cases hh0 : h0 = planetHash
    · rw [hh0] at hmem0 ⊢
      rw [hPLph] at hmem0
      obtain ⟨hma, hmold⟩ := ((inv.artifactsNodup planetHash).mem_erase_iff).mp hmem0
      refine ⟨?_, ?_⟩
      · rw [hOWNne m hma, if_pos hmem0]
      · rw [hIDXall m]
        exact (inv.memberOwner m planetHash hmold).2
    · rw [hPLne h0 hh0] at hmem0
      obtain ⟨hmo, hmi⟩ := inv.memberOwner m h0 hmem0
      have hma : m ≠ moduleId := by
        intro e
        rw [e, h6] at hmo
        exact hh0 hmo.symm
      have hnotE : m ∉ (s.planets planetHash).artifacts.erase moduleId := by
        intro hc
        have hx := (inv.memberOwner m planetHash (List.erase_subset _ _ hc)).1
        rw [hmo] at hx
        exact hh0 hx
      refine ⟨?_, ?_⟩
      · rw [hOWNne m hma, if_neg hnotE]
        exact hmo
      · rw [hIDXall m]
        exact hmi
  · intro h0
    by_cases hh0 : h0 = planetHash
    · rw [hh0, hPLph]
      exact (inv.artifactsNodup planetHash).erase moduleId
    · rw [hPLne h0 hh0]
      exact inv.artifactsNodup h0
  · rw [hIDXall 0]
    exact inv.zeroId
  · intro h0
    rw [hCC h0, hUP h0]
    exact inv.craftBound h0

theorem inv_uninstall {env : CallEnv} {s : WorldState}
    {spaceshipId moduleId planetHash : Nat} {s' : WorldState} (inv : Inv s)
    (hok : uninstallModule env s spaceshipId moduleId planetHash = .ok s') : Inv s' := by
  obtain ⟨si, h1, h2, h3, h4, hsi, hcap, hs'⟩ := uninstallModule_ok_inv hok
  have hMinst : (s.installedTable moduleId).installed = true := by
    by_contra hc
    have hfalse : (s.installedTable moduleId).installed = false := by
      cases hb : (s.installedTable moduleId).installed
      · rfl
      · exact absurd hb hc
    have hdef := inv.notInstalled moduleId hfalse
    rw [hdef] at hsi
    rcases getSlotIndexForSlotType_ok hsi with ⟨ha, _⟩ | ⟨ha, _⟩ | ⟨ha, _⟩
    · cases ha
    · cases ha
    · rcases ha with ha | ha
      · cases ha
      · cases ha
  obtain ⟨ho1, ho2, ho3, ho4, ho5, ho6, ho7⟩ := inv.installedOff moduleId hMinst
  have hIT : ∀ m, m ≠ moduleId → s'.installedTable m = s.installedTable m := by
    intro m hm
    rw [hs']
    exact Function.update_noteq hm _ _
  have hITmod : s'.installedTable moduleId = ⟨0, 0, false⟩ := by
    rw [hs']
    exact Function.update_same _ _ _
  have hSB : ∀ x, x ≠ spaceshipId → s'.shipBonus x = s.shipBonus x := by
    intro x hx
    rw [hs']
    exact Function.update_noteq hx _ _
  have hSBship : s'.shipBonus spaceshipId =
      Bonus.subFloor (s.shipBonus spaceshipId) (s.moduleBonus moduleId) := by
    rw [hs']
    exact Function.update_same _ _ _
  have hMB : ∀ m, s'.moduleBonus m = s.moduleBonus m := by
    rw [hs']
    exact fun _ => rfl
  have hST0 : ∀ x, s'.spaceshipTypeOf x = s.spaceshipTypeOf x := by
    rw [hs']
    exact fun _ => rfl
  have hSBi0 : ∀ x, s'.shipBiome x = s.shipBiome x := by
    rw [hs']
    exact fun _ => rfl
  have hSRa0 : ∀ x, s'.shipRarity x = s.shipRarity x := by
    rw [hs']
    exact fun _ => rfl
  have hIDXall : ∀ m, s'.artifactIndexOf m = s.artifactIndexOf m := by
    rw [hs']
    exact fun _ => rfl
  have hPLne : ∀ h0, h0 ≠ planetHash → s'.planets h0 = s.planets h0 := by
    intro h0 hh0
    rw [hs']
    exact Function.update_noteq hh0 _ _
  have hPLph : (s'.planets planetHash).artifacts =
      (s.planets planetHash).artifacts ++ [moduleId] := by
    rw [hs']
    simp only [writePlanet_planets, Function.update_same]
  have hOWN : ∀ x, s'.artifactOwner x =
      if x ∈ (s.planets planetHash).artifacts ++ [moduleId] then planetHash
      else s.artifactOwner x := by
    rw [hs']
    exact fun _ => rfl
  have hCC : ∀ h0, s'.craftCount h0 = s.craftCount h0 := by
    rw [hs']
    exact fun _ => rfl
  have hUP : ∀ h0, s'.upgradeLevel h0 = s.upgradeLevel h0 := by
    rw [hs']
    exact fun _ => rfl
  refine ⟨?_, ?_, ?_, ?_, ?_, ?_, ?_⟩
  · intro ship0
    by_cases hship0 : ship0 = spaceshipId
    · rw [hship0]
      obtain ⟨L, hnd, hchar, hsum⟩ := inv.bonusSum spaceshipId
      have hModL : moduleId ∈ L := (hchar moduleId).mpr ⟨hMinst, h4⟩
      refine ⟨L.erase moduleId, hnd.erase moduleId, ?_, ?_⟩
      · intro m
        unfold installedOn
        by_cases hm : m = moduleId
        · rw [hm, hITmod]
          constructor
          · intro hc
            exact absurd rfl ((hnd.mem_erase_iff.mp hc).1)
          · intro hP
            cases hP.1
        · rw [hIT m hm, hnd.mem_erase_iff]
          constructor
          · intro hc
            exact (hchar m).mp hc.2
          · intro hP
            exact ⟨hm, (hchar m).mpr hP⟩
      · rw [hSBship, hsum]
        have hperm : modulesSum s L =
            Bonus.add (s.moduleBonus moduleId) (modulesSum s (L.erase moduleId)) := by
          rw [modulesSum_perm (List.perm_cons_erase hModL)]
          rfl
        rw [hperm, shipBase_ext (hST0 spaceshipId) (hSBi0 spaceshipId) (hSRa0 spaceshipId),
          modulesSum_congr (fun m _ => hMB m)]
        exact bonus_subFloor_cancel _ _ _
    · obtain ⟨L, hnd, hchar, hsum⟩ := inv.bonusSum ship0
      have hModNotL : moduleId ∉ L := by
        intro hc
        have hx := ((hchar moduleId).mp hc).2
        rw [h4] at hx
        exact hship0 hx.symm
      refine ⟨L, hnd, ?_, ?_⟩
      · intro m
        unfold installedOn
        by_cases hm : m = moduleId
        · rw [hm, hITmod]
          constructor
          · intro hc
            exact absurd hc hModNotL
          · intro hP
            cases hP.1
        · rw [hIT m hm]
          exact hchar m
      · rw [hSB ship0 hship0, hsum, shipBase_ext (hST0 ship0) (hSBi0 ship0) (hSRa0 ship0),
          modulesSum_congr (fun m _ => hMB m)]
  · intro m hm
    by_cases hm0 : m = moduleId
    · rw [hm0, hITmod] at hm
      cases hm
    · rw [hIT m hm0] at hm
      obtain ⟨hp1, hp2, hp3, hp4, hp5, hp6, hp7⟩ := inv.installedOff m hm
      have hnotf : m ∉ (s.planets planetHash).artifacts ++ [moduleId] := by
        intro hc
        rcases List.mem_append.mp hc with hc1 | hc2
        · exact hp2 planetHash hc1
        · exact hm0 (List.mem_singleton.mp hc2)
      refine ⟨?_, ?_, ?_, ?_, ?_, ?_, ?_⟩
      · rw [hOWN m, if_neg hnotf]
        exact hp1
      · intro h0
        by_cases hh0 : h0 = planetHash
        · rw [hh0, hPLph]
          exact hnotf
        · rw [hPLne h0 hh0]
          exact hp2 h0
      · exact (hIDXall m).trans hp3
      · rw [hIT m hm0]
        exact hp4
      · rw [hIT m hm0]
        exact (hIDXall _).trans hp5
      · rw [hIT m hm0]
        exact hp6
      · rw [hIT m hm0]
        exact hp7
  · intro m hm
    by_cases hm0 : m = moduleId
    · rw [hm0]
      exact hITmod
    · rw [hIT m hm0] at hm ⊢
      exact inv.notInstalled m hm
  · intro m h0 hmem0
    by_cases hh0 : h0 = planetHash
    · rw [hh0] at hmem0 ⊢
      rw [hPLph] at hmem0
      refine ⟨?_, ?_⟩
      · rw [hOWN m, if_pos hmem0]
      · rcases List.mem_append.mp hmem0 with hc1 | hc2
        · rw [hIDXall m]
          exact (inv.memberOwner m planetHash hc1).2
        · rw [List.mem_singleton.mp hc2]
          rw [hIDXall moduleId, ho3]
          decide
    · rw [hPLne h0 hh0] at hmem0
      obtain ⟨hmo, hmi⟩ := inv.memberOwner m h0 hmem0
      have hma : m ≠ moduleId := by
        intro e
        rw [e] at hmem0
        exact ho2 h0 hmem0
      have hnotf : m ∉ (s.planets planetHash).artifacts ++ [moduleId] := by
        intro hc
        rcases List.mem_append.mp hc with hc1 | hc2
        · have hx := (inv.memberOwner m planetHash hc1).1
          rw [hmo] at hx
          exact hh0 hx
        · exact hma (List.mem_singleton.mp hc2)
      refine ⟨?_, ?_⟩
      · rw [hOWN m, if_neg hnotf]
        exact hmo
      · rw [hIDXall m]
        exact hmi
  · intro h0
    by_cases hh0 : h0 = planetHash
    · rw [hh0, hPLph]
      refine (inv.artifactsNodup planetHash).append (List.nodup_singleton _) ?_
      intro x hx hxa
      rw [List.mem_singleton.mp hxa] at hx
      exact ho2 planetHash hx
    · rw [hPLne h0 hh0]
      exact inv.artifactsNodup h0
  · exact (hIDXall 0).trans inv.zeroId
  · intro h0
    rw [hCC h0, hUP h0]
    exact inv.craftBound h0

theorem inv_step {cfg : Cfg} {s s' : WorldState} (inv : Inv s) (hstep : Step cfg s s') :
    Inv s' := by
  cases hstep
  case craftModuleStep hok => exact inv_craftModule inv hok
  case craftSpaceshipStep hok => exact inv_craftSpaceship inv hok
  case installStep hok => exact inv_install inv hok
  case uninstallStep hok => exact inv_uninstall inv hok
  case upgradeStep hok => exact inv_upgrade inv hok
  case relocateStep hok => exact inv_relocate inv hok

theorem reachable_inv {cfg : Cfg} {s : WorldState} (h : Reachable cfg s) : Inv s := by
  induction h with
  | init s hs => exact inv_init hs
  | step s s' _ hstep ih => exact inv_step ih hstep



/-- The concrete genesis state satisfies the genesis predicate. -/
theorem g0_init : InitState g0 :=
  ⟨fun _ => rfl, fun _ => rfl, fun _ => rfl, fun _ => rfl, fun _ => rfl,
   fun _ => rfl, fun _ => rfl, fun _ => rfl, fun _ _ => rfl, fun _ => rfl, fun _ => rfl⟩

theorem reachable_g0 : Reachable cfg0 g0 := Reachable.init g0 g0_init

theorem reachable_t1 : Reachable cfg0 t1 :=
  Reachable.step g0 t1 reachable_g0 (Step.upgradeStep (envN 0) g0 2 t1 rfl)

theorem reachable_t2 : Reachable cfg0 t2 :=
  Reachable.step t1 t2 reachable_t1 (Step.upgradeStep (envN 0) t1 2 t2 rfl)

theorem reachable_t3 : Reachable cfg0 t3 :=
  Reachable.step t2 t3 reachable_t2
    (Step.craftSpaceshipStep (envN 100) t2 1 2 [PYROSTEEL, SCRAPIUM] [150, 100] 1 t3 rfl)

theorem reachable_t4 : Reachable cfg0 t4 :=
  Reachable.step t3 t4 reachable_t3
    (Step.craftModuleStep (envN 101) t3 2 1 [WINDSTEEL, AURORIUM] [80, 40] 1 t4 rfl)

theorem reachable_t5 : Reachable cfg0 t5 :=
  Reachable.step t4 t5 reachable_t4
    (Step.craftModuleStep (envN 102) t4 2 1 [WINDSTEEL, AURORIUM] [120, 60] 1 t5 rfl)

theorem reachable_t6 : Reachable cfg0 t6 :=
  Reachable.step t5 t6 reachable_t5
    (Step.craftModuleStep (envN 103) t5 2 1 [WINDSTEEL, AURORIUM] [180, 90] 1 t6 rfl)

theorem reachable_t7 : Reachable cfg0 t7 :=
  Reachable.step t6 t7 reachable_t6 (Step.relocateStep t6 101 2 1 t7 rfl)

theorem reachable_t8 : Reachable cfg0 t8 :=
  Reachable.step t7 t8 reachable_t7 (Step.relocateStep t7 102 2 1 t8 rfl)

theorem reachable_t9 : Reachable cfg0 t9 :=
  Reachable.step t8 t9 reachable_t8 (Step.relocateStep t8 103 2 1 t9 rfl)

theorem reachable_t10 : Reachable cfg0 t10 :=
  Reachable.step t9 t10 reachable_t9 (Step.installStep (envN 0) t9 100 101 1 t10 rfl)

theorem reachable_t11 : Reachable cfg0 t11 :=
  Reachable.step t10 t11 reachable_t10 (Step.installStep (envN 0) t10 100 102 1 t11 rfl)

theorem reachable_t12 : Reachable cfg0 t12 :=
  Reachable.step t11 t12 reachable_t11 (Step.installStep (envN 0) t11 100 103 1 t12 rfl)

/-! ### Claim theorems -/

/-- C6: the crafting multiplier table is 100/150/225 (percent) for craft
counts 0/1/2, and any craft attempted at craftCount >= 1 + upgradeTier is
rejected with FoundryCraftingLimitReached.  In this embedding a rejected
call returns `.error` and induces no `Step`, so state is unchanged.
Conjunct 2: no craft at or past the limit can succeed; conjunct 3: under
the guards checked before the limit, the error is exactly
FoundryCraftingLimitReached. -/
theorem c6_multiplier_table_and_craft_limit :
    (getCraftingMMultiplier 0 = 100 ∧ getCraftingMMultiplier 1 = 150 ∧
     getCraftingMMultiplier 2 = 225) ∧
    (∀ cfg env s h mt mats amts biome s2,
       1 + s.upgradeLevel h ≤ s.craftCount h →
       craftModule cfg env s h mt mats amts biome ≠ .ok s2) ∧
    (∀ cfg env s h mt mats amts biome,
       (s.planets h).spaceType ≠ 0 →
       (s.planets h).owner = env.caller →
       (s.planets h).planetType = FOUNDRY →
       4 ≤ (s.planets h).level →
       1 ≤ mt → mt ≤ 4 →
       1 + s.upgradeLevel h ≤ s.craftCount h →
       craftModule cfg env s h mt mats amts biome = .error .FoundryCraftingLimitReached) := by
  refine ⟨⟨rfl, rfl, rfl⟩, ?_, ?_⟩
  · intro cfg env s h mt mats amts biome s2 hge hok
    obtain ⟨_, _, _, _, _, _, _, _, _, _, _, hlt, _, _, _, _⟩ := craftModule_ok_inv hok
    omega
  · intro cfg env s h mt mats amts biome h1 h2 h3 h4 h5a h5b h6
    simp only [craftModule]
    rw [if_neg h1, if_neg (fun hc => hc h2), if_neg (fun hc => hc h3),
      if_neg (by omega), if_neg (by omega), if_pos h6]

/-- C6 witness: on the saturated state `g1` (craftCount 1, tier 0) a module
craft on foundry 2 is rejected with FoundryCraftingLimitReached, and cannot
succeed. -/
theorem c6_witness :
    craftModule cfg0 (envN 101) g1 2 1 [WINDSTEEL, AURORIUM] [80, 40] 1 =
      .error .FoundryCraftingLimitReached ∧
    craftModule cfg0 (envN 101) g1 2 1 [WINDSTEEL, AURORIUM] [80, 40] 1 ≠ .ok g0 :=
  ⟨c6_multiplier_table_and_craft_limit.2.2 cfg0 (envN 101) g1 2 1 [WINDSTEEL, AURORIUM]
      [80, 40] 1 (by decide) (by decide) (by decide) (by decide) (by decide) (by decide)
      (by decide),
   c6_multiplier_table_and_craft_limit.2.1 cfg0 (envN 101) g1 2 1 [WINDSTEEL, AURORIUM]
      [80, 40] 1 g0 (by decide)⟩

/-- C7 (corrected): the bonus formula uses floor division, not rounding.
Conjuncts 1-5: the biome bonus table as claimed; conjuncts 6-8: per-axis
bonus is 0 when the role bonus is 0 and otherwise
(biomeBonus + roleBonus) * rarityMultiplier / D with floor division, D = 400
on the module attack axis and D = 100 elsewhere; conjunct 9: the claimed
concrete scenario (Engine module, biome bonus 1, COMMON) gives speed 9 and
attack 0. -/
theorem c7_bonus_formula_floor :
    (∀ b, 1 ≤ b → b ≤ 3 → getBiomeBonus b = 1) ∧
    (∀ b, 4 ≤ b → b ≤ 6 → getBiomeBonus b = 2) ∧
    (∀ b, 7 ≤ b → b ≤ 9 → getBiomeBonus b = 4) ∧
    getBiomeBonus 10 = 8 ∧
    (∀ b, b = 0 ∨ 11 ≤ b → getBiomeBonus b = 0) ∧
    (∀ biome rarity mt,
       ModuleCraftingSystem.calculateAttackBonus biome rarity mt =
         if ModuleCraftingSystem.getModuleRoleAttackBonus mt = 0 then 0
         else (getBiomeBonus biome + ModuleCraftingSystem.getModuleRoleAttackBonus mt) *
                getRarityMultiplier rarity / 400) ∧
    (∀ biome rarity mt,
       ModuleCraftingSystem.calculateSpeedBonus biome rarity mt =
         if ModuleCraftingSystem.getModuleRoleSpeedBonus mt = 0 then 0
         else (getBiomeBonus biome + ModuleCraftingSystem.getModuleRoleSpeedBonus mt) *
                getRarityMultiplier rarity / 100) ∧
    (∀ biome rarity st,
       FoundryCraftingSystem.calculateSpeedBonus biome rarity st =
         if FoundryCraftingSystem.getSpaceshipRoleSpeedBonus st = 0 then 0
         else (getBiomeBonus biome + FoundryCraftingSystem.getSpaceshipRoleSpeedBonus st) *
                getRarityMultiplier rarity / 100) ∧
    (ModuleCraftingSystem.calculateSpeedBonus 1 .COMMON 1 = 9 ∧
     ∀ b r, ModuleCraftingSystem.calculateAttackBonus b r 1 = 0) := by
  refine ⟨?_, ?_, ?_, rfl, ?_, fun _ _ _ => rfl, fun _ _ _ => rfl, fun _ _ _ => rfl,
    by decide, fun b r => rfl⟩
  · intro b hb1 hb2
    simp only [getBiomeBonus]
    rw [if_pos ⟨hb1, hb2⟩]
  · intro b hb1 hb2
    simp only [getBiomeBonus]
    rw [if_neg (by omega), if_pos ⟨hb1, hb2⟩]
  · intro b hb1 hb2
    simp only [getBiomeBonus]
    rw [if_neg (by omega), if_neg (by omega), if_pos ⟨hb1, hb2⟩]
  · intro b hb
    simp only [getBiomeBonus]
    rw [if_neg (by omega), if_neg (by omega), if_neg (by omega), if_neg (by omega)]

/-- C7 witness: the hypothesis-bearing biome-table conjuncts at concrete
biomes. -/
theorem c7_witness :
    getBiomeBonus 2 = 1 ∧ getBiomeBonus 5 = 2 ∧ getBiomeBonus 8 = 4 ∧
    getBiomeBonus 0 = 0 ∧ getBiomeBonus 11 = 0 :=
  ⟨c7_bonus_formula_floor.1 2 (by decide) (by decide),
   c7_bonus_formula_floor.2.1 5 (by decide) (by decide),
   c7_bonus_formula_floor.2.2.1 8 (by decide) (by decide),
   c7_bonus_formula_floor.2.2.2.2.1 0 (Or.inl rfl),
   c7_bonus_formula_floor.2.2.2.2.1 11 (Or.inr (by decide))⟩

/-- C7 counterexample to the claim as stated: at biome 1, RARE (multiplier
120), Engine role (speed role bonus 8), the code computes
(1+8)*120/100 = 10 by truncation, while round((1+8)*120/100) = 11. -/
theorem c7_counterexample :
    ModuleCraftingSystem.calculateSpeedBonus 1 .RARE 1 = 10 ∧
    roundHalfUp ((getBiomeBonus 1 + ModuleCraftingSystem.getModuleRoleSpeedBonus 1) *
      getRarityMultiplier .RARE) 100 = 11 ∧
    (10 : Nat) ≠ 11 := ⟨by decide, by decide, by decide⟩

/-- C8: rarity is the claimed pure function of (stationLevel, seed):
the code's rarity computation equals the claimed case analysis on the
masked seed slice (conjunct 1), the spaceship version is the identical
function (conjunct 2), and the result depends on the seed only through
seed &&& 0xfff000 (conjunct 3). -/
theorem c8_rarity_pure_deterministic :
    (∀ level seed, calculateModuleRarity level seed =
      (let slice := seed &&& 0xfff000
       let eff := if slice < 0x40000 then level + 2
                  else if slice < 0x100000 then level + 1 else level
       if eff ≤ 1 then ArtifactRarity.COMMON
       else if eff ≤ 3 then ArtifactRarity.RARE
       else if eff ≤ 5 then ArtifactRarity.EPIC
       else if eff ≤ 7 then ArtifactRarity.LEGENDARY
       else ArtifactRarity.MYTHIC)) ∧
    (∀ level seed, calculateSpaceshipRarity level seed = calculateModuleRarity level seed) ∧
    (∀ level s1 s2, s1 &&& 0xfff000 = s2 &&& 0xfff000 →
       calculateModuleRarity level s1 = calculateModuleRarity level s2) := by
  refine ⟨fun _ _ => rfl, fun _ _ => rfl, fun level s1 s2 hmask => ?_⟩
  simp only [calculateModuleRarity]
  rw [hmask]

/-- C8 witness: two seeds with the same masked slice give the same rarity. -/
theorem c8_witness : calculateModuleRarity 4 0x7b4000 = calculateModuleRarity 4 0x7b4999 :=
  c8_rarity_pure_deterministic.2.2 4 0x7b4000 0x7b4999 (by decide)

/-- C10: a successful craft, module or spaceship, stores the
caller-supplied biome exactly when it lies in 1..BIOME_MAX, and otherwise
the biome computed from the foundry (conjuncts 1 and 2); the computed biome
is CORRUPTED for a dead-space planet (conjunct 3) and otherwise derived
from the keccak hash of (planetHash, perlin) against the configured
thresholds, clamped to BIOME_MAX (conjunct 4). -/
theorem c10_biome_fallback :
    (∀ cfg env s h mt mats amts biome s',
       craftModule cfg env s h mt mats amts biome = .ok s' →
       s'.moduleBiome env.newId =
         (if biome = 0 ∨ biome > BIOME_MAX
          then calculateBiomeFromPlanet cfg h (s.planets h) else biome)) ∧
    (∀ cfg env s h st mats amts biome s',
       craftSpaceship cfg env s h st mats amts biome = .ok s' →
       s'.shipBiome env.newId =
         (if biome = 0 ∨ biome > BIOME_MAX
          then calculateBiomeFromPlanet cfg h (s.planets h) else biome)) ∧
    (∀ cfg h p, p.spaceType = DEAD_SPACE → calculateBiomeFromPlanet cfg h p = CORRUPTED) ∧
    (∀ cfg h p, p.spaceType ≠ DEAD_SPACE →
       calculateBiomeFromPlanet cfg h p =
         (let biomeBase := cfg.keccakPH h p.perlin % 1000
          let r0 := p.spaceType * 3
          let r1 := if biomeBase < cfg.biomeThreshold1 then r0 - 2
                    else if biomeBase < cfg.biomeThreshold2 then r0 - 1 else r0
          if r1 > BIOME_MAX then BIOME_MAX else r1)) := by
  refine ⟨?_, ?_, ?_, ?_⟩
  · intro cfg env s h mt mats amts biome s' hok
    obtain ⟨_, _, _, _, _, _, _, _, _, _, _, _, _, _, _, hs'⟩ := craftModule_ok_inv hok
    rw [hs']
    simp only [writePlanet_moduleBiome, Function.update_same]
  · intro cfg env s h st mats amts biome s' hok
    obtain ⟨_, _, _, _, _, _, _, _, _, _, _, _, _, _, _, hs'⟩ := craftSpaceship_ok_inv hok
    rw [hs']
    simp only [writePlanet_shipBiome, Function.update_same]
  · intro cfg h p hdead
    simp only [calculateBiomeFromPlanet, if_pos hdead]
  · intro cfg h p hnd
    simp only [calculateBiomeFromPlanet, if_neg hnd]

/-- C10 witness: a module craft with caller-supplied biome 0 on foundry 2
and a spaceship craft with caller-supplied biome 0 on foundry 1 of the
genesis state both store the planet-derived biome (here 3, nebula space
with biomeBase 0 below no threshold), and the two branches of
calculateBiomeFromPlanet at concrete planets. -/
theorem c10_witness :
    c10craft.moduleBiome 101 =
      (if (0 : Nat) = 0 ∨ (0 : Nat) > BIOME_MAX
       then calculateBiomeFromPlanet cfg0 2 (g0.planets 2) else 0) ∧
    c10shipCraft.shipBiome 100 =
      (if (0 : Nat) = 0 ∨ (0 : Nat) > BIOME_MAX
       then calculateBiomeFromPlanet cfg0 1 (g0.planets 1) else 0) ∧
    calculateBiomeFromPlanet cfg0 1 deadPlanet = CORRUPTED ∧
    calculateBiomeFromPlanet cfg0 2 (g0.planets 2) =
      (let biomeBase := cfg0.keccakPH 2 (g0.planets 2).perlin % 1000
       let r0 := (g0.planets 2).spaceType * 3
       let r1 := if biomeBase < cfg0.biomeThreshold1 then r0 - 2
                 else if biomeBase < cfg0.biomeThreshold2 then r0 - 1 else r0
       if r1 > BIOME_MAX then BIOME_MAX else r1) :=
  ⟨c10_biome_fallback.1 cfg0 (envN 101) g0 2 1 [WINDSTEEL, AURORIUM] [80, 40] 0 c10craft rfl,
   c10_biome_fallback.2.1 cfg0 (envN 100) g0 1 1 [WINDSTEEL, AURORIUM] [100, 50] 0
     c10shipCraft rfl,
   c10_biome_fallback.2.2.1 cfg0 1 deadPlanet rfl,
   c10_biome_fallback.2.2.2 cfg0 2 (g0.planets 2) (by decide)⟩

theorem reachable_u1 : Reachable cfg0 u1 :=
  Reachable.step g0 u1 reachable_g0 (Step.upgradeStep (envN 0) g0 1 u1 rfl)

theorem reachable_u2 : Reachable cfg0 u2 :=
  Reachable.step u1 u2 reachable_u1
    (Step.craftSpaceshipStep (envN 100) u1 1 1 [WINDSTEEL, AURORIUM] [100, 50] 1 u2 rfl)

theorem reachable_u3 : Reachable cfg0 u3 :=
  Reachable.step u2 u3 reachable_u2
    (Step.craftSpaceshipStep (envN 104) u2 1 1 [WINDSTEEL, AURORIUM] [150, 75] 1 u3 rfl)

theorem reachable_u4 : Reachable cfg0 u4 :=
  Reachable.step u3 u4 reachable_u3
    (Step.craftModuleStep (envN 101) u3 2 1 [WINDSTEEL, AURORIUM] [80, 40] 1 u4 rfl)

theorem reachable_u5 : Reachable cfg0 u5 :=
  Reachable.step u4 u5 reachable_u4 (Step.relocateStep u4 101 2 1 u5 rfl)

theorem reachable_u6 : Reachable cfg0 u6 :=
  Reachable.step u5 u6 reachable_u5 (Step.installStep (envN 0) u5 100 101 1 u6 rfl)

/-- C9: on every reachable state every station satisfies
craftCount <= 1 + upgradeTier with upgradeTier <= 2, hence craftCount <= 3.
Reachability closes the invariant under every operation of the subsystem
(crafts, upgrades, installs, uninstalls, relocations). -/
theorem c9_craft_count_bounded {cfg : Cfg} {s : WorldState} (h : Reachable cfg s)
    (stationId : Nat) :
    s.craftCount stationId ≤ 1 + s.upgradeLevel stationId ∧
    s.upgradeLevel stationId ≤ 2 ∧
    s.craftCount stationId ≤ 3 := by
  have hb := (reachable_inv h).craftBound stationId
  exact ⟨hb.1, hb.2, by omega⟩

/-- C9 witness: foundry 2 of the fully played trace (two upgrades, three
crafts) sits exactly at the bound. -/
theorem c9_witness :
    t12.craftCount 2 ≤ 1 + t12.upgradeLevel 2 ∧
    t12.upgradeLevel 2 ≤ 2 ∧
    t12.craftCount 2 ≤ 3 :=
  c9_craft_count_bounded reachable_t12 2

/-- C1 (corrected): on every reachable state, a carrier's aggregated bonuses
equal its own crafted base bonuses plus the sum of the bonuses of the
modules currently recorded as installed on it (the claim omitted the
crafted base). -/
theorem c1_aggregated_is_base_plus_module_sum {cfg : Cfg} {s : WorldState}
    (h : Reachable cfg s) (shipId : Nat) :
    ∃ L : List Nat, L.Nodup ∧ (∀ m, m ∈ L ↔ installedOn s shipId m) ∧
      s.shipBonus shipId = Bonus.add (shipBase s shipId) (modulesSum s L) :=
  (reachable_inv h).bonusSum shipId

/-- C1 witness: the decomposition at the reachable state t10 for Fighter
100 (one installed module). -/
theorem c1_witness :
    ∃ L : List Nat, L.Nodup ∧ (∀ m, m ∈ L ↔ installedOn t10 100 m) ∧
      t10.shipBonus 100 = Bonus.add (shipBase t10 100) (modulesSum t10 L) :=
  c1_aggregated_is_base_plus_module_sum reachable_t10 100

/-- C1 counterexample to the claim as stated: at the reachable state t10
the modules installed on carrier 100 are exactly [101], yet the carrier's
aggregated bonuses differ from the sum of the installed module bonuses
(the carrier keeps the nonzero base bonuses written at craft time). -/
theorem c1_counterexample :
    Reachable cfg0 t10 ∧
    List.Nodup [101] ∧
    (∀ m, m ∈ [101] ↔ installedOn t10 100 m) ∧
    t10.shipBonus 100 ≠ modulesSum t10 [101] := by
  refine ⟨reachable_t10, by decide, ?_, by decide⟩
  have hIT : t10.installedTable = Function.update g0.installedTable 101 ⟨100, 1, true⟩ := rfl
  intro m
  simp only [installedOn, hIT]
  by_cases hm : m = 101
  · subst hm
    simp
  · have hg : g0.installedTable m = (⟨0, 0, false⟩ : InstalledData) := rfl
    simp [hm, Function.update_noteq hm, hg]

/-- C2 (code bug): at the reachable state t12, carrier 100 is a Fighter
(type 2) whose engine-slot capacity is 2, yet the three distinct engine
modules 101, 102 and 103 are all simultaneously recorded as installed on
it, and the third install succeeded instead of failing with ModuleSlotFull;
the code's own occupant counter reports only 1 because it inspects a single
slot record that each install overwrites. -/
theorem c2_slot_capacity_violated :
    Reachable cfg0 t12 ∧
    t12.spaceshipTypeOf 100 = 2 ∧
    getModuleLimit 2 ENGINES_SLOT = .ok 2 ∧
    installedOn t12 100 101 ∧ installedOn t12 100 102 ∧ installedOn t12 100 103 ∧
    getSlotTypeForModuleType (t12.moduleTypeOf 101) = .ok ENGINES_SLOT ∧
    getSlotTypeForModuleType (t12.moduleTypeOf 102) = .ok ENGINES_SLOT ∧
    getSlotTypeForModuleType (t12.moduleTypeOf 103) = .ok ENGINES_SLOT ∧
    ((101 : Nat) ≠ 102 ∧ (101 : Nat) ≠ 103 ∧ (102 : Nat) ≠ 103) ∧
    countInstalledModules t12 100 ENGINES_SLOT = .ok 1 ∧
    installModule (envN 0) t11 100 103 1 = .ok t12 :=
  ⟨reachable_t12, by decide, by decide, by decide, by decide, by decide, by decide,
   by decide, by decide, by decide, by decide, rfl⟩

/-- C3 counterexample to the claim as stated: at the reachable state u6,
module 101 is recorded installed on Scout 100; attempting to install it on
the different carrier 104 is rejected, but with ArtifactNotOnPlanet2 (the
module's ArtifactOwner record was deleted at install), not with
ModuleAlreadyInstalled as claimed, and re-installing it on the same carrier
100 is also rejected with ArtifactNotOnPlanet2 rather than being an
idempotent no-op. -/
theorem c3_counterexample :
    Reachable cfg0 u6 ∧
    installedOn u6 100 101 ∧
    (100 : Nat) ≠ 104 ∧
    u6.spaceshipTypeOf 104 = 1 ∧ u6.artifactOwner 104 = 1 ∧
    installModule (envN 0) u6 104 101 1 = .error .ArtifactNotOnPlanet2 ∧
    installModule (envN 0) u6 100 101 1 = .error .ArtifactNotOnPlanet2 ∧
    Err.ArtifactNotOnPlanet2 ≠ Err.ModuleAlreadyInstalled :=
  ⟨reachable_u6, by decide, by decide, by decide, by decide, rfl, rfl, by decide⟩

/-- C3 (corrected): once a module is recorded installed, any further install
of it, on any carrier, cannot succeed on a reachable state (conjunct 1; the
ModuleAlreadyInstalled branch is unreachable because the deleted
ArtifactOwner record fails the earlier ArtifactNotOnPlanet2 check); and the
ModuleSlotFull rejection for a same-category slot at capacity holding a
different module does hold as claimed (conjunct 2, for a single-slot
category where the code's occupant count is 1). -/
theorem c3_installed_module_install_rejected :
    (∀ cfg s, Reachable cfg s → ∀ env shipId moduleId planetHash s2,
       (s.installedTable moduleId).installed = true →
       installModule env s shipId moduleId planetHash ≠ .ok s2) ∧
    (∀ env s shipId moduleId planetHash st si lim,
       (s.planets planetHash).spaceType ≠ 0 →
       (s.planets planetHash).owner = env.caller →
       s.artifactOwner shipId ≠ 0 →
       s.artifactOwner shipId = planetHash →
       s.artifactIndexOf shipId = 3 →
       s.artifactOwner moduleId ≠ 0 →
       s.artifactOwner moduleId = planetHash →
       s.artifactIndexOf moduleId = 23 →
       s.installedTable moduleId = ⟨0, 0, false⟩ →
       s.spaceshipTypeOf shipId ≠ 0 →
       s.moduleTypeOf moduleId ≠ 0 →
       getSlotTypeForModuleType (s.moduleTypeOf moduleId) = .ok st →
       getSlotIndexForSlotType st = .ok si →
       0 < (s.slot shipId si).moduleId →
       (s.slot shipId si).moduleId ≠ moduleId →
       (s.slot shipId si).moduleSlotType = st →
       getModuleLimit (s.spaceshipTypeOf shipId) st = .ok lim →
       lim ≤ 1 →
       installModule env s shipId moduleId planetHash = .error .ModuleSlotFull) := by
  constructor
  · intro cfg s hreach env shipId moduleId planetHash s2 hinst hok
    obtain ⟨st, si, h1, h2, h3, h4, h5, h6, h7, h8, h9, hst, hsi, hocc, hle, hs1⟩ :=
      installModule_ok_inv hok
    have hoff := (reachable_inv hreach).installedOff moduleId hinst
    exact h4 (h6.symm.trans hoff.1)
  · intro env s shipId moduleId planetHash st si lim h1 h2 h3a h3b h5 h6a h6b h7 hIT0 h8 h9
      hst hsi hocc1 hocc2 hocc3 hlim hle1
    have hval : validateInstallModule env s shipId moduleId planetHash =
        .error .ModuleSlotFull := by
      simp only [validateInstallModule]
      rw [if_neg h1]
      rw [if_neg (fun hc => hc h2)]
      rw [if_neg h3a]
      rw [if_neg (fun hc => hc h3b)]
      rw [if_neg (fun hc => hc h5)]
      rw [if_neg h6a]
      rw [if_neg (fun hc => hc h6b)]
      rw [if_neg (fun hc => hc h7)]
      rw [hIT0]
      rw [if_neg (by simp)]
      rw [if_neg h8]
      rw [if_neg h9]
      simp only [validateInstallSlotCheck, hst, hsi]
      simp only [validateSlotOccupancy]
      rw [if_pos hocc1, if_neg hocc2, if_pos hocc3]
      simp only [countInstalledModules, hsi]
      rw [if_pos ⟨hocc1, hocc3⟩]
      simp only [hlim]
      rw [if_pos (by omega)]
    simp only [installModule, hval]

/-- C3 witness: conjunct 2 at a concrete slot-full state (Scout with an
occupied engine slot), and conjunct 1 at the reachable state t12. -/
theorem c3_witness :
    installModule (envN 0) c3wState 100 101 1 = .error .ModuleSlotFull ∧
    installModule (envN 0) t12 100 101 1 ≠ .ok g0 :=
  ⟨c3_installed_module_install_rejected.2 (envN 0) c3wState 100 101 1 1 1 1
      (by decide) (by decide) (by decide) (by decide) (by decide) (by decide) (by decide)
      (by decide) (by decide) (by decide) (by decide) (by decide) (by decide) (by decide)
      (by decide) (by decide) (by decide) (by decide),
   c3_installed_module_install_rejected.1 cfg0 t12 reachable_t12 (envN 0) 100 101 1 g0
      (by decide)⟩

/-- C4: whenever both the module M and the carrier C sit on planet ph whose
storage was within capacity, a successful install of M on C immediately
followed by an uninstall succeeds and restores the carrier's aggregated
bonuses exactly on all four axes, restores the planet's artifact count, and
returns M to the planet's storage with its ArtifactOwner record pointing
back at the planet. -/
theorem c4_install_uninstall_roundtrip {env : CallEnv} {s : WorldState}
    {C M ph : Nat} {s1 : WorldState}
    (hM : M ∈ (s.planets ph).artifacts)
    (hC : C ∈ (s.planets ph).artifacts)
    (hcap : (s.planets ph).artifacts.length ≤ (s.planets ph).artifactCap)
    (hok : installModule env s C M ph = .ok s1) :
    ∃ s2, uninstallModule env s1 C M ph = .ok s2 ∧
      s2.shipBonus C = s.shipBonus C ∧
      (s2.planets ph).artifacts.length = (s.planets ph).artifacts.length ∧
      s2.artifactOwner M = ph ∧
      M ∈ (s2.planets ph).artifacts := by
  obtain ⟨st, si, h1, h2, h3, h4, h5, h6, h7, h8, h9, hst, hsi, hocc, hle, hs1⟩ :=
    installModule_ok_inv hok
  have hCM : C ≠ M := by
    intro he
    rw [he] at h5
    omega
  have hsp : (s1.planets ph).spaceType = (s.planets ph).spaceType := by
    rw [hs1]
    simp only [deleteArtifactOwner_planets, writePlanet_planets, Function.update_same]
  have hown1 : (s1.planets ph).owner = (s.planets ph).owner := by
    rw [hs1]
    simp only [deleteArtifactOwner_planets, writePlanet_planets, Function.update_same]
  have harts1 : (s1.planets ph).artifacts = (s.planets ph).artifacts.erase M := by
    rw [hs1]
    simp only [deleteArtifactOwner_planets, writePlanet_planets, Function.update_same]
  have hcap1 : (s1.planets ph).artifactCap = (s.planets ph).artifactCap := by
    rw [hs1]
    simp only [deleteArtifactOwner_planets, writePlanet_planets, Function.update_same]
  have hIT1 : s1.installedTable M = ⟨C, st, true⟩ := by
    rw [hs1]
    simp only [deleteArtifactOwner_installedTable, writePlanet_installedTable,
      Function.update_same]
  have hSB1 : s1.shipBonus C = Bonus.add (s.shipBonus C) (s.moduleBonus M) := by
    rw [hs1]
    simp only [deleteArtifactOwner_shipBonus, writePlanet_shipBonus, Function.update_same]
  have hMB1 : s1.moduleBonus M = s.moduleBonus M := by
    rw [hs1]
    simp only [deleteArtifactOwner_moduleBonus, writePlanet_moduleBonus]
  have hvLen : 0 < (s.planets ph).artifacts.length := List.length_pos_of_mem hM
  have hcaplt : (s1.planets ph).artifacts.length < (s1.planets ph).artifactCap := by
    rw [harts1, hcap1, List.length_erase_of_mem hM]
    omega
  have hval : validateUninstallModule env s1 C M ph = .ok () := by
    simp only [validateUninstallModule]
    rw [if_neg (by rw [hsp]; exact h1)]
    rw [if_neg (fun hc => hc (hown1.trans h2))]
    rw [if_pos (by rw [harts1]; exact (List.mem_erase_of_ne hCM).mpr hC)]
    rw [if_neg (fun hc => hc (by rw [hIT1]))]
  refine ⟨writePlanet
      { s1 with
        shipBonus := Function.update s1.shipBonus C
          (Bonus.subFloor (s1.shipBonus C) (s1.moduleBonus M))
        slot := Function.update s1.slot C (Function.update (s1.slot C) si ⟨st, 0⟩)
        installedTable := Function.update s1.installedTable M ⟨0, 0, false⟩ }
      ph { s1.planets ph with artifacts := (s1.planets ph).artifacts ++ [M] },
    ?_, ?_, ?_, ?_, ?_⟩
  · simp only [uninstallModule, hval]
    simp only [executeUninstallModule, hIT1]
    simp only [hsi]
    rw [if_pos hcaplt]
  · simp only [writePlanet_shipBonus, Function.update_same, hSB1, hMB1]
    have hcancel := bonus_subFloor_cancel (s.shipBonus C) Bonus.zero (s.moduleBonus M)
    rw [bonus_add_zero, bonus_add_zero] at hcancel
    exact hcancel
  · simp only [writePlanet_planets, Function.update_same, harts1, List.length_append,
      List.length_erase_of_mem hM]
    simp only [List.length_singleton]
    omega
  · simp only [writePlanet_artifactOwner]
    rw [if_pos (by simp)]
  · simp only [writePlanet_planets, Function.update_same]
    simp

/-- C4 witness: the roundtrip at the reachable state t9 (install module 101
on Fighter 100 at planet 1, then uninstall it). -/
theorem c4_witness :
    ∃ s2, uninstallModule (envN 0) t10 100 101 1 = .ok s2 ∧
      s2.shipBonus 100 = t9.shipBonus 100 ∧
      (s2.planets 1).artifacts.length = (t9.planets 1).artifacts.length ∧
      s2.artifactOwner 101 = 1 ∧
      101 ∈ (s2.planets 1).artifacts :=
  @c4_install_uninstall_roundtrip (envN 0) t9 100 101 1 t10
    (by decide) (by decide) (by decide) rfl

theorem mem_of_subset_nodup_length {l1 l2 : List Nat} (h1 : l1.Nodup) (h2 : l2.Nodup)
    (hsub : ∀ x ∈ l1, x ∈ l2) (hlen : l2.length ≤ l1.length) : ∀ x ∈ l2, x ∈ l1 := by
  have hfs : l1.toFinset ⊆ l2.toFinset := by
    intro x hx
    rw [List.mem_toFinset] at hx ⊢
    exact hsub x hx
  have hcard : l2.toFinset.card ≤ l1.toFinset.card := by
    rw [List.toFinset_card_of_nodup h1, List.toFinset_card_of_nodup h2]
    exact hlen
  have heq := Finset.eq_of_subset_of_card_le hfs hcard
  intro x hx
  rw [← List.mem_toFinset, ← heq, List.mem_toFinset] at hx
  exact hx

theorem moduleRecipe_firsts_nodup {mt : Nat} {recipe : List (Nat × Nat)}
    (h : moduleRecipe mt = .ok recipe) : (recipe.map Prod.fst).Nodup := by
  simp only [moduleRecipe] at h
  repeat' split at h
  all_goals cases h
  all_goals decide

theorem spaceshipRecipe_firsts_nodup {st : Nat} {recipe : List (Nat × Nat)}
    (h : spaceshipRecipe st = .ok recipe) : (recipe.map Prod.fst).Nodup := by
  simp only [spaceshipRecipe] at h
  repeat' split at h
  all_goals cases h
  all_goals decide

theorem scanMaterials_spec {l : List (Nat × Nat)} :
    ∀ {found : Nat → Bool} {amts : Nat → Nat} {found2 : Nat → Bool} {amts2 : Nat → Nat},
      scanMaterials l found amts = .ok (found2, amts2) →
      (l.map Prod.fst).Nodup ∧
      (∀ p ∈ l, found p.1 = false) ∧
      (∀ x, x ∉ l.map Prod.fst → found2 x = found x ∧ amts2 x = amts x) ∧
      (∀ p ∈ l, found2 p.1 = true ∧ amts2 p.1 = p.2) := by
  induction l with
  | nil =>
    intro found amts found2 amts2 h
    simp only [scanMaterials, Except.ok.injEq, Prod.mk.injEq] at h
    obtain ⟨rfl, rfl⟩ := h
    exact ⟨List.nodup_nil, by simp, fun x _ => ⟨rfl, rfl⟩, by simp⟩
  | cons hd tl ih =>
    intro found amts found2 amts2 h
    obtain ⟨m, a⟩ := hd
    simp only [scanMaterials] at h
    repeat' split at h
    all_goals try cases h
    rename_i hgt hge hfm
    obtain ⟨ihnd, ihf0, ihuntouched, ihmem⟩ := ih h
    have hmnot : m ∉ tl.map Prod.fst := by
      intro hc
      obtain ⟨p, hp, hpm⟩ := List.mem_map.mp hc
      have hup := ihf0 p hp
      rw [hpm, Function.update_same] at hup
      cases hup
    have hfmf : found m = false := by
      revert hfm
      cases found m <;> simp
    refine ⟨?_, ?_, ?_, ?_⟩
    · simp only [List.map_cons]
      exact List.nodup_cons.mpr ⟨hmnot, ihnd⟩
    · intro p hp
      rcases List.mem_cons.mp hp with rfl | hp2
      · exact hfmf
      · have h0 := ihf0 p hp2
        by_cases hpm : p.1 = m
        · rw [hpm, Function.update_same] at h0
          cases h0
        · rw [Function.update_noteq hpm] at h0
          exact h0
    · intro x hx
      simp only [List.map_cons, List.mem_cons] at hx
      push_neg at hx
      obtain ⟨hxm, hxtl⟩ := hx
      have hu := ihuntouched x hxtl
      rw [Function.update_noteq hxm, Function.update_noteq hxm] at hu
      exact hu
    · intro p hp
      rcases List.mem_cons.mp hp with rfl | hp2
      · have hu := ihuntouched m hmnot
        rw [Function.update_same, Function.update_same] at hu
        exact ⟨hu.1, hu.2⟩
      · exact ihmem p hp2

theorem checkExpected_spec {l : List (Nat × Nat)} :
    ∀ {found : Nat → Bool} {amts : Nat → Nat} {mult : Nat},
      checkExpected found amts mult l = .ok () →
      ∀ q ∈ l, found q.1 = true ∧
        q.2 * mult / 100 ≤ amts q.1 ∧ amts q.1 ≤ q.2 * mult / 100 + 1 := by
  induction l with
  | nil =>
    intro found amts mult h q hq
    cases hq
  | cons hd tl ih =>
    intro found amts mult h
    obtain ⟨m, base⟩ := hd
    simp only [checkExpected] at h
    repeat' split at h
    all_goals try cases h
    rename_i hfm hamt
    push_neg at hamt
    intro q hq
    rcases List.mem_cons.mp hq with rfl | hq2
    · refine ⟨?_, hamt.1, hamt.2⟩
      revert hfm
      cases found m <;> simp
    · exact ih h q hq2

theorem consumeMaterials_spec {l : List (Nat × Nat)} :
    ∀ {p p2 : PlanetData},
      (l.map Prod.fst).Nodup →
      consumeMaterials p l = .ok p2 →
      (∀ x, x ∉ l.map Prod.fst → p2.materials x = p.materials x) ∧
      (∀ q ∈ l, q.2 * 1000 ≤ p.materials q.1 ∧
        p2.materials q.1 = p.materials q.1 - q.2 * 1000) := by
  induction l with
  | nil =>
    intro p p2 hnd h
    simp only [consumeMaterials] at h
    cases h
    exact ⟨fun x _ => rfl, by simp⟩
  | cons hd tl ih =>
    intro p p2 hnd h
    obtain ⟨m, a⟩ := hd
    simp only [consumeMaterials] at h
    split at h
    · cases h
    rename_i hsuff
    simp only [List.map_cons, List.nodup_cons] at hnd
    obtain ⟨hmnot, hndtl⟩ := hnd
    obtain ⟨ihun, ihmem⟩ := ih hndtl h
    have hpm : ∀ y, y ≠ m →
        ({ p with materials := Function.update p.materials m (p.materials m - a * 1000) } :
          PlanetData).materials y = p.materials y :=
      fun y hy => Function.update_noteq hy _ _
    have hpmm :
        ({ p with materials := Function.update p.materials m (p.materials m - a * 1000) } :
          PlanetData).materials m = p.materials m - a * 1000 :=
      Function.update_same _ _ _
    refine ⟨?_, ?_⟩
    · intro x hx
      simp only [List.map_cons, List.mem_cons] at hx
      push_neg at hx
      exact (ihun x hx.2).trans (hpm x hx.1)
    · intro q hq
      rcases List.mem_cons.mp hq with rfl | hq2
      · constructor
        · show a * 1000 ≤ p.materials m
          omega
        · show p2.materials m = p.materials m - a * 1000
          have hm2 := ihun m hmnot
          rw [hpmm] at hm2
          exact hm2
      · obtain ⟨hge, heq⟩ := ihmem q hq2
        have hq1m : q.1 ≠ m := by
          intro hc
          apply hmnot
          rw [← hc]
          exact List.mem_map_of_mem Prod.fst hq2
        rw [hpm q.1 hq1m] at hge heq
        exact ⟨hge, heq⟩

theorem validateRecipeWith_ok {recipe : List (Nat × Nat)} {p : PlanetData}
    {mats amts : List Nat} {mult : Nat}
    (h : validateRecipeWith recipe p mats amts mult = .ok ()) :
    mats.length = amts.length ∧ mats.length = recipe.length ∧
    ∃ found amtsF,
      scanMaterials (mats.zip amts) (fun _ => false) (fun _ => 0) = .ok (found, amtsF) ∧
      checkExpected found amtsF mult recipe = .ok () := by
  simp only [validateRecipeWith] at h
  repeat' split at h
  all_goals try cases h
  all_goals
    exact ⟨by omega, by omega, _, _, by assumption, by assumption⟩

theorem craftConsumption_core {recipe : List (Nat × Nat)} {p p2 : PlanetData}
    {mats amts : List Nat} {mult : Nat}
    (hndr : (recipe.map Prod.fst).Nodup)
    (hval : validateRecipeWith recipe p mats amts mult = .ok ())
    (hcons : consumeMaterials p (mats.zip amts) = .ok p2) :
    (∀ x, x ∉ mats → p2.materials x = p.materials x) ∧
    (∀ q ∈ recipe, ∃ a, (q.1, a) ∈ mats.zip amts ∧
       q.2 * mult / 100 ≤ a ∧ a ≤ q.2 * mult / 100 + 1 ∧
       a * 1000 ≤ p.materials q.1 ∧
       p2.materials q.1 = p.materials q.1 - a * 1000) ∧
    (∀ q ∈ mats.zip amts, ∃ base, (q.1, base) ∈ recipe) := by
  obtain ⟨hlenA, hlenR, found, amtsF, hscan, hche⟩ := validateRecipeWith_ok hval
  have hfst : (mats.zip amts).map Prod.fst = mats :=
    List.map_fst_zip mats amts (le_of_eq hlenA)
  obtain ⟨hndz, _, hscanUn, hscanMem⟩ := scanMaterials_spec hscan
  have hndmats : mats.Nodup := hfst ▸ hndz
  obtain ⟨hconsUn, hconsMem⟩ := consumeMaterials_spec hndz hcons
  have hcheAll := checkExpected_spec hche
  have hrm : ∀ q ∈ recipe, q.1 ∈ mats := by
    intro q hq
    by_contra hc
    have hnotz : q.1 ∉ (mats.zip amts).map Prod.fst := by
      rw [hfst]
      exact hc
    have hinit := (hscanUn q.1 hnotz).1
    have hft := (hcheAll q hq).1
    rw [hft] at hinit
    cases hinit
  refine ⟨?_, ?_, ?_⟩
  · intro x hx
    refine hconsUn x ?_
    rw [hfst]
    exact hx
  · intro q hq
    have hq1z : q.1 ∈ (mats.zip amts).map Prod.fst := by
      rw [hfst]
      exact hrm q hq
    obtain ⟨pr, hpr, hprf⟩ := List.mem_map.mp hq1z
    have ham := (hscanMem pr hpr).2
    rw [hprf] at ham
    have hc1 := (hconsMem pr hpr).1
    have hc2 := (hconsMem pr hpr).2
    rw [hprf] at hc1 hc2
    refine ⟨pr.2, ?_, ?_, ?_, hc1, hc2⟩
    · rw [← hprf]
      exact hpr
    · have hb := (hcheAll q hq).2.1
      rw [ham] at hb
      exact hb
    · have hb := (hcheAll q hq).2.2
      rw [ham] at hb
      exact hb
  · intro q hq
    have hq1 : q.1 ∈ mats := by
      have hmem : q.1 ∈ (mats.zip amts).map Prod.fst := List.mem_map_of_mem Prod.fst hq
      rw [hfst] at hmem
      exact hmem
    have hsub : ∀ x ∈ recipe.map Prod.fst, x ∈ mats := by
      intro x hx
      obtain ⟨r, hr, hrx⟩ := List.mem_map.mp hx
      rw [← hrx]
      exact hrm r hr
    have hlenM : mats.length ≤ (recipe.map Prod.fst).length := by
      rw [List.length_map]
      omega
    have hrev := mem_of_subset_nodup_length hndr hndmats hsub hlenM q.1 hq1
    obtain ⟨r, hr, hrx⟩ := List.mem_map.mp hrev
    refine ⟨r.2, ?_⟩
    rw [← hrx]
    exact hr

/-- C5 (corrected): a successful craft increments the station's craftCount
by exactly 1 and, for each required resource kind, decreases the station
balance by exactly the caller-provided amount times 1000 — an amount the
validation only constrains to lie between floor(base * multiplier / 100)
and floor(base * multiplier / 100) + 1 — while balances of kinds outside
the submitted material list are unchanged and every submitted kind is a
recipe kind.  The claimed exact decrease ceil(base * multiplier / 100) is
wrong on both counts (floor, and the +1 tolerance).  Conjunct 1 covers
module crafts, conjunct 2 spaceship crafts. -/
theorem c5_craft_consumes_validated_amounts :
    (∀ cfg env s fh mt mats amts biome s2,
       craftModule cfg env s fh mt mats amts biome = .ok s2 →
       s2.craftCount fh = s.craftCount fh + 1 ∧
       ∃ recipe, moduleRecipe mt = .ok recipe ∧
         (∀ x, x ∉ mats → (s2.planets fh).materials x = (s.planets fh).materials x) ∧
         (∀ q ∈ recipe, ∃ a, (q.1, a) ∈ mats.zip amts ∧
            q.2 * getCraftingMMultiplier (s.craftCount fh) / 100 ≤ a ∧
            a ≤ q.2 * getCraftingMMultiplier (s.craftCount fh) / 100 + 1 ∧
            a * 1000 ≤ (s.planets fh).materials q.1 ∧
            (s2.planets fh).materials q.1 = (s.planets fh).materials q.1 - a * 1000) ∧
         (∀ q ∈ mats.zip amts, ∃ base, (q.1, base) ∈ recipe)) ∧
    (∀ cfg env s fh st mats amts biome s2,
       craftSpaceship cfg env s fh st mats amts biome = .ok s2 →
       s2.craftCount fh = s.craftCount fh + 1 ∧
       ∃ recipe, spaceshipRecipe st = .ok recipe ∧
         (∀ x, x ∉ mats → (s2.planets fh).materials x = (s.planets fh).materials x) ∧
         (∀ q ∈ recipe, ∃ a, (q.1, a) ∈ mats.zip amts ∧
            q.2 * getCraftingMMultiplier (s.craftCount fh) / 100 ≤ a ∧
            a ≤ q.2 * getCraftingMMultiplier (s.craftCount fh) / 100 + 1 ∧
            a * 1000 ≤ (s.planets fh).materials q.1 ∧
            (s2.planets fh).materials q.1 = (s.planets fh).materials q.1 - a * 1000) ∧
         (∀ q ∈ mats.zip amts, ∃ base, (q.1, base) ∈ recipe)) := by
  constructor
  · intro cfg env s fh mt mats amts biome s2 hok
    obtain ⟨recipe, foundry1, hrec, hval, hcons, _, _, _, _, _, _, _, _, _, _, hs2⟩ :=
      craftModule_ok_inv hok
    have hmat2 : ∀ x, (s2.planets fh).materials x = foundry1.materials x := by
      intro x
      rw [hs2]
      simp only [writePlanet_planets, Function.update_same]
    have hcc : s2.craftCount fh = s.craftCount fh + 1 := by
      rw [hs2]
      simp only [writePlanet_craftCount, Function.update_same]
    obtain ⟨hun, hper, hcov⟩ :=
      craftConsumption_core (moduleRecipe_firsts_nodup hrec) hval hcons
    refine ⟨hcc, recipe, hrec, ?_, ?_, hcov⟩
    · intro x hx
      rw [hmat2 x]
      exact hun x hx
    · intro q hq
      obtain ⟨a, h1, h2, h3, h4, h5⟩ := hper q hq
      refine ⟨a, h1, h2, h3, h4, ?_⟩
      rw [hmat2 q.1]
      exact h5
  · intro cfg env s fh st mats amts biome s2 hok
    obtain ⟨recipe, foundry1, hrec, hval, hcons, _, _, _, _, _, _, _, _, _, _, hs2⟩ :=
      craftSpaceship_ok_inv hok
    have hmat2 : ∀ x, (s2.planets fh).materials x = foundry1.materials x := by
      intro x
      rw [hs2]
      simp only [writePlanet_planets, Function.update_same]
    have hcc : s2.craftCount fh = s.craftCount fh + 1 := by
      rw [hs2]
      simp only [writePlanet_craftCount, Function.update_same]
    obtain ⟨hun, hper, hcov⟩ :=
      craftConsumption_core (spaceshipRecipe_firsts_nodup hrec) hval hcons
    refine ⟨hcc, recipe, hrec, ?_, ?_, hcov⟩
    · intro x hx
      rw [hmat2 x]
      exact hun x hx
    · intro q hq
      obtain ⟨a, h1, h2, h3, h4, h5⟩ := hper q hq
      refine ⟨a, h1, h2, h3, h4, ?_⟩
      rw [hmat2 q.1]
      exact h5

/-- C5 counterexample to the claim as stated: a module craft that provides
81 WINDSTEEL against the Engine base amount 80 at multiplier 100 succeeds
and consumes 81 * 1000, while the claimed exact decrease is
ceil(80 * 100 / 100) * 1000 = 80 * 1000. -/
theorem c5_counterexample :
    ∃ s2, craftModule cfg0 (envN 105) g0 2 1 [WINDSTEEL, AURORIUM] [81, 40] 1 = .ok s2 ∧
      (g0.planets 2).materials WINDSTEEL - (s2.planets 2).materials WINDSTEEL = 81 * 1000 ∧
      ceilDiv (80 * getCraftingMMultiplier (g0.craftCount 2)) 100 * 1000 = 80 * 1000 ∧
      81 * 1000 ≠ 80 * 1000 :=
  ⟨(craftModule cfg0 (envN 105) g0 2 1 [WINDSTEEL, AURORIUM] [81, 40] 1).toOption.getD g0,
   rfl, by decide, by decide, by decide⟩

/-- C5 witness: the consumption characterisation at the concrete Engine
module craft of the trace (foundry 2, multiplier 100, amounts [80, 40]). -/
theorem c5_witness :
    t4.craftCount 2 = t3.craftCount 2 + 1 ∧
    ∃ recipe, moduleRecipe 1 = .ok recipe ∧
      (∀ x, x ∉ [WINDSTEEL, AURORIUM] →
         (t4.planets 2).materials x = (t3.planets 2).materials x) ∧
      (∀ q ∈ recipe, ∃ a, (q.1, a) ∈ [WINDSTEEL, AURORIUM].zip [80, 40] ∧
         q.2 * getCraftingMMultiplier (t3.craftCount 2) / 100 ≤ a ∧
         a ≤ q.2 * getCraftingMMultiplier (t3.craftCount 2) / 100 + 1 ∧
         a * 1000 ≤ (t3.planets 2).materials q.1 ∧
         (t4.planets 2).materials q.1 = (t3.planets 2).materials q.1 - a * 1000) ∧
      (∀ q ∈ [WINDSTEEL, AURORIUM].zip [80, 40], ∃ base, (q.1, base) ∈ recipe) :=
  c5_craft_consumes_validated_amounts.1 cfg0 (envN 101) t3 2 1
    [WINDSTEEL, AURORIUM] [80, 40] 1 t4 rfl

end DFPunk
